import Mathlib

/-!
Verification development for the Craig-O-Cleaner repository's tooling
scripts.  The Python sources are shallowly embedded: strings become
`List Char` (Python `str` is a sequence of code points), the specific
regular expressions used by the scripts become deterministic scanners
with the same matching semantics, fallible operations return
`Except String`/`Option`, and floating-point durations are modelled as
exact rationals.  Every definition is translated from the corresponding
function in the repository; the file then proves or refutes the frozen
claims about those scripts.
-/

namespace Craig

/-! ## Core string machinery

Python's `str.replace(old, new)` replaces every non-overlapping
occurrence of `old`, scanning left to right, and `re.search` with a
literal prefix finds the leftmost occurrence.  `splitFirst` returns the
text before and after the first occurrence of a pattern;
`replaceAll` is `str.replace` (with a fuel argument so everything
evaluates inside the kernel). -/

/-- Split a character list at the first occurrence of `p`:
`splitFirst p l = some (a, b)` means `l = a ++ p ++ b` and no earlier
occurrence of `p` exists. -/
def splitFirst (p : List Char) : List Char → Option (List Char × List Char)
  | [] => if p.isPrefixOf ([] : List Char) then some ([], []) else none
  | c :: rest =>
    if p.isPrefixOf (c :: rest) then some ([], (c :: rest).drop p.length)
    else (splitFirst p rest).map (fun ab => (c :: ab.1, ab.2))

/-- Whether `p` occurs as a contiguous substring of `l` (Python `in`). -/
def containsSub (p l : List Char) : Bool := (splitFirst p l).isSome

/-- Fueled worker for `replaceAll`. -/
def replaceAllF (p r : List Char) : Nat → List Char → List Char
  | 0, l => l
  | Nat.succ f, l =>
    match l with
    | [] => []
    | c :: rest =>
      if p ≠ [] ∧ p.isPrefixOf (c :: rest) then
        r ++ replaceAllF p r f ((c :: rest).drop p.length)
      else c :: replaceAllF p r f rest

/-- Python `l.replace(p, r)`: replace every non-overlapping occurrence of
`p` in `l` by `r`, scanning left to right. -/
def replaceAll (p r l : List Char) : List Char := replaceAllF p r l.length l

/-- Count the non-overlapping occurrences of `p` in `l` (used to state
"exactly one new entry" facts). -/
def countSubF (p : List Char) : Nat → List Char → Nat
  | 0, _ => 0
  | Nat.succ f, l =>
    match l with
    | [] => 0
    | c :: rest =>
      if p ≠ [] ∧ p.isPrefixOf (c :: rest) then
        1 + countSubF p f ((c :: rest).drop p.length)
      else countSubF p f rest

/-- Number of non-overlapping occurrences of `p` in `l`. -/
def countSub (p l : List Char) : Nat := countSubF p l.length l

/-! ## Embedding of `add_files_to_xcode.py`

`add_files_to_project(project_path, files_to_add)` reads the manifest,
searches for the `PBXBuildFile` section, the `PBXFileReference` section
and the `Sources` build phase with three `re.search` calls, and on
success splices new entries into the text with `str.replace`; if any
search fails it prints an error and returns `False` without writing the
file.  The UUIDs from `generate_uuid()` are random, so they enter the
embedding as parameters (`refs`, `builds`).  Printing is side-channel
output and is not part of the value-level embedding. -/

/-- Section begin marker matched by group 1 of the `PBXBuildFile` search
(the regex literal includes the newline). -/
def bbMark : List Char := "/* Begin PBXBuildFile section */\n".data

/-- Section end marker of the `PBXBuildFile` search (group 3). -/
def beMark : List Char := "/* End PBXBuildFile section */".data

/-- Section begin marker of the `PBXFileReference` search. -/
def frMark : List Char := "/* Begin PBXFileReference section */\n".data

/-- Section end marker of the `PBXFileReference` search. -/
def feMark : List Char := "/* End PBXFileReference section */".data

/-- Literal head of the `Sources` build-phase pattern. -/
def slMark : List Char := "/* Sources */ = \x7b".data

/-- Literal `files = (` inside the `Sources` build-phase pattern. -/
def fpMark : List Char := "files = (".data

/-- Literal `);` closing the file list (group 3 of the phase patterns). -/
def rpMark : List Char := ");".data

/-- Literal head of the `Core` group pattern. -/
def coreMark : List Char := "/* Core */ = \x7b".data

/-- Literal `children = (` inside the `Core` group pattern. -/
def chMark : List Char := "children = (".data

/-- `re.search(r'(begin)(.*?)(end)', content, re.DOTALL)` for literal
markers: the leftmost `begin`, then the lazy middle up to the first
`end`.  If the first `begin` has no `end` after it then no later one
does either, so the whole search fails. -/
def findSection (b e content : List Char) :
    Option (List Char × List Char × List Char) :=
  match splitFirst b content with
  | none => none
  | some (pre, rest) =>
    match splitFirst e rest with
    | none => none
    | some (mid, post) => some (pre, mid, post)

/-- Lazy `[^S]*?target`: the shortest run of characters different from
`stop` followed by `target`; fails on hitting `stop` or the end first. -/
def scanLazyTo (stop : Char) (target : List Char) : List Char → Option (List Char × List Char)
  | [] => if target.isPrefixOf ([] : List Char) then some ([], []) else none
  | c :: rest =>
    if target.isPrefixOf (c :: rest) then some ([], (c :: rest).drop target.length)
    else if c = stop then none
    else (scanLazyTo stop target rest).map (fun ab => (c :: ab.1, ab.2))

/-- Search for `lit [^\x7d]*? inner (.*?) \);` (the shape of the
`Sources`-phase and `Core`-group patterns).  On a failed candidate start
the regex engine resumes scanning one character later; `);` missing
after the lazy middle means no later start can succeed either.  Returns
`(pre, s, mid, post)` with the whole match being
`lit ++ s ++ inner ++ mid ++ ");"`. -/
def findLazyPhaseF (lit inner : List Char) :
    Nat → List Char → Option (List Char × List Char × List Char × List Char)
  | 0, _ => none
  | Nat.succ f, l =>
    match splitFirst lit l with
    | none => none
    | some (a, b) =>
      match scanLazyTo '\x7d' inner b with
      | some (s, b2) =>
        match splitFirst rpMark b2 with
        | some (mid, post) => some (a, s, mid, post)
        | none => none
      | none =>
        match findLazyPhaseF lit inner f (lit.drop 1 ++ b) with
        | none => none
        | some (a2, s, mid, post) => some (a ++ lit.take 1 ++ a2, s, mid, post)

/-- The `Sources` build-phase search of `add_files_to_project`. -/
def findSources (content : List Char) :
    Option (List Char × List Char × List Char × List Char) :=
  findLazyPhaseF slMark fpMark (content.length + 1) content

/-- The `Core` group search of `add_files_to_project`. -/
def findCore (content : List Char) :
    Option (List Char × List Char × List Char × List Char) :=
  findLazyPhaseF coreMark chMark (content.length + 1) content

/-- One `PBXBuildFile` entry string generated for `filename`. -/
def buildEntry (refs builds : String → String) (filename : String) : List Char :=
  "\t\t".data ++ (builds filename).data ++ " /* ".data ++ filename.data ++
    " in Sources */ = \x7bisa = PBXBuildFile; fileRef = ".data ++
    (refs filename).data ++ " /* ".data ++ filename.data ++ " */; \x7d;\n".data

/-- One `PBXFileReference` entry string generated for `filename`. -/
def fileRefEntry (refs : String → String) (filename : String) : List Char :=
  "\t\t".data ++ (refs filename).data ++ " /* ".data ++ filename.data ++
    " */ = \x7bisa = PBXFileReference; lastKnownFileType = sourcecode.swift; path = ".data ++
    filename.data ++ "; sourceTree = \"<group>\"; \x7d;\n".data

/-- One `Sources` build-phase reference generated for `filename`. -/
def sourceRefEntry (builds : String → String) (filename : String) : List Char :=
  "\t\t\t\t".data ++ (builds filename).data ++ " /* ".data ++ filename.data ++
    " in Sources */,\n".data

/-- One `Core`-group child reference generated for `filename`. -/
def groupRefEntry (refs : String → String) (filename : String) : List Char :=
  "\t\t\t\t".data ++ (refs filename).data ++ " /* ".data ++ filename.data ++ " */,\n".data

/-- `''.join(...)` over the files to add, in list order. -/
def joinEntries (entry : String → List Char) (files : List String) : List Char :=
  files.foldr (fun fn acc => entry fn ++ acc) []

/-- The text-splicing part of `add_files_to_project`, given the three
matched sections: the three `str.replace` calls followed by the optional
`Core`-group insertion. -/
def applyPatches (content m1 m2 s1 m3 : List Char) (files : List String)
    (refs builds : String → String) : List Char :=
  let newB := joinEntries (buildEntry refs builds) files
  let newF := joinEntries (fileRefEntry refs) files
  let newS := joinEntries (sourceRefEntry builds) files
  let u1 := replaceAll (bbMark ++ m1 ++ beMark) (bbMark ++ newB ++ m1 ++ beMark) content
  let u2 := replaceAll (frMark ++ m2 ++ feMark) (frMark ++ newF ++ m2 ++ feMark) u1
  let u3 := replaceAll (slMark ++ s1 ++ fpMark ++ m3 ++ rpMark)
      (slMark ++ s1 ++ fpMark ++ newS ++ m3 ++ rpMark) u2
  match findCore u3 with
  | none => u3
  | some (_, cs, cmid, _) =>
    let newG := joinEntries (groupRefEntry refs) files
    replaceAll (coreMark ++ cs ++ chMark ++ cmid ++ rpMark)
      (coreMark ++ cs ++ chMark ++ newG ++ cmid ++ rpMark) u3

/-- `add_files_to_project`: the returned Boolean together with the final
contents of the project file on disk (unchanged on failure, since the
function only writes after all three searches succeed). -/
def addFilesRun (content : List Char) (files : List String)
    (refs builds : String → String) : Bool × List Char :=
  match findSection bbMark beMark content with
  | none => (false, content)
  | some (_, m1, _) =>
    match findSection frMark feMark content with
    | none => (false, content)
    | some (_, m2, _) =>
      match findSources content with
      | none => (false, content)
      | some (_, s1, m3, _) =>
        (true, applyPatches content m1 m2 s1 m3 files refs builds)

/-- The `__main__` block of the script: exit status 0 when
`add_files_to_project` returns `True`, otherwise 1. -/
def addFilesExitCode (content : List Char) (files : List String)
    (refs builds : String → String) : Nat :=
  if (addFilesRun content files refs builds).1 then 0 else 1

/-- The fixed `new_files` list of the script: `(path, name)` pairs. -/
def newFilesList : List (String × String) :=
  [("Services/BrowserAutomationService.swift", "BrowserAutomationService.swift"),
   ("Services/MemoryOptimizerService.swift", "MemoryOptimizerService.swift"),
   ("Services/PermissionsService.swift", "PermissionsService.swift"),
   ("Services/SystemMetricsService.swift", "SystemMetricsService.swift"),
   ("Views/BrowserTabsView.swift", "BrowserTabsView.swift"),
   ("Views/DashboardView.swift", "DashboardView.swift"),
   ("Views/EnhancedMenuBarView.swift", "EnhancedMenuBarView.swift"),
   ("Views/MainAppView.swift", "MainAppView.swift"),
   ("Views/MemoryCleanupView.swift", "MemoryCleanupView.swift"),
   ("Views/PermissionsView.swift", "PermissionsView.swift")]

/-- Literal head of the `Sources` build-phase pattern (this script pins
the phase by its UUID). -/
def updSrcLit : List Char := "72E50CC81E7DFE8C4F4A01AD /* Sources */ = \x7b".data

/-- Literal head of the `Craig-O-Clean` group pattern. -/
def updGrpLit : List Char := "AAA8B2312C2FDE28DD3FAF8F /* Craig-O-Clean */ = \x7b".data

/-- Literal `isa = PBXGroup;` required inside the group pattern. -/
def isaGrpLit : List Char := "isa = PBXGroup;".data

/-- End marker of the `PBXGroup` section. -/
def geMark : List Char := "/* End PBXGroup section */".data

/-- The four build-setting rewrites of the script. -/
def dep13 : List Char := "MACOSX_DEPLOYMENT_TARGET = 13.0;".data

/-- Replacement text for the deployment target. -/
def dep14 : List Char := "MACOSX_DEPLOYMENT_TARGET = 14.0;".data

/-- App-sandbox setting before the rewrite. -/
def sbYes : List Char := "ENABLE_APP_SANDBOX = YES;".data

/-- App-sandbox setting after the rewrite. -/
def sbNo : List Char := "ENABLE_APP_SANDBOX = NO;".data

/-- Product name before the rewrite. -/
def prodOld : List Char := "PRODUCT_NAME = \"Craig-O-Clean\";".data

/-- Product name after the rewrite. -/
def prodNew : List Char := "PRODUCT_NAME = \"ClearMind Control Center\";".data

/-- Literal head of the display-name pattern. -/
def displayLit : List Char := "INFOPLIST_KEY_CFBundleDisplayName = \"".data

/-- Closing quote-and-semicolon of the display-name pattern. -/
def quoteSemi : List Char := "\";".data

/-- The full replacement written for any display-name match. -/
def displayNew : List Char :=
  "INFOPLIST_KEY_CFBundleDisplayName = \"ClearMind Control Center\";".data

/-- Whether a character is Python `\s` (ASCII whitespace; the manifests
involved are ASCII). -/
def isPySpace (c : Char) : Bool :=
  c = ' ' || c = '\t' || c = '\n' || c = '\x0d' || c = '\x0c' || c = '\x0b'

/-- All decompositions `l = pre ++ p ++ suf`, in order of occurrence. -/
def allSplitsF (p : List Char) : Nat → List Char → List (List Char × List Char)
  | 0, _ => []
  | Nat.succ f, l =>
    match splitFirst p l with
    | none => []
    | some (a, b) => (a, b) :: (allSplitsF p f b).map (fun ab => (a ++ p ++ ab.1, ab.2))

/-- Greedy `[^\x7d]+files = \(([^)]+)\);` after a matched literal head:
the maximal non-brace run is searched right-to-left for `files = (`
(greedy backtracking), the following maximal non-parenthesis run must be
non-empty and be followed by `);`.  Returns
`(pre, existing, rest-after-match)`. -/
def greedyPhaseTail (b : List Char) : Option (List Char × List Char × List Char) :=
  let run := b.takeWhile (fun c => c ≠ '\x7d')
  let cands := ((allSplitsF fpMark (run.length + 1) run).filter
      (fun ab => ab.1 ≠ [])).reverse
  cands.findSome? fun ab =>
    let rest0 := ab.2 ++ b.drop run.length
    let run2 := rest0.takeWhile (fun c => c ≠ ')')
    if run2 ≠ [] ∧ rpMark.isPrefixOf (rest0.drop run2.length) then
      some (ab.1, run2, rest0.drop (run2.length + 2))
    else none

/-- `re.sub` with the pinned `Sources`-phase pattern; `add_sources`
appends the new references after the existing entries. -/
def subSourcesUpdF (newRefs : List Char) : Nat → List Char → List Char
  | 0, l => l
  | Nat.succ f, l =>
    match splitFirst updSrcLit l with
    | none => l
    | some (a, b) =>
      match greedyPhaseTail b with
      | some (pre, run2, after) =>
        a ++ updSrcLit ++ pre ++ fpMark ++ run2 ++ newRefs ++ rpMark ++
          subSourcesUpdF newRefs f after
      | none => a ++ updSrcLit.take 1 ++ subSourcesUpdF newRefs f (updSrcLit.drop 1 ++ b)

/-- Wrapper with enough fuel for the whole text. -/
def subSourcesUpd (newRefs l : List Char) : List Char :=
  subSourcesUpdF newRefs (l.length + 1) l

/-- Tail of the `Craig-O-Clean` group pattern:
`\s+isa = PBXGroup;\s+children = \(([^)]+)\);` (the whitespace runs use
maximal munch because the following literals start with non-space
characters).  Returns `(ws1, ws2, existing, rest-after-match)`. -/
def groupPatternTail (b : List Char) : Option (List Char × List Char × List Char × List Char) :=
  let ws1 := b.takeWhile isPySpace
  if ws1 = [] then none
  else
    let b1 := b.drop ws1.length
    if isaGrpLit.isPrefixOf b1 then
      let b2 := b1.drop isaGrpLit.length
      let ws2 := b2.takeWhile isPySpace
      if ws2 = [] then none
      else
        let b3 := b2.drop ws2.length
        if chMark.isPrefixOf b3 then
          let b4 := b3.drop chMark.length
          let run2 := b4.takeWhile (fun c => c ≠ ')')
          if run2 ≠ [] ∧ rpMark.isPrefixOf (b4.drop run2.length) then
            some (ws1, ws2, run2, b4.drop (run2.length + 2))
          else none
        else none
    else none

/-- `re.sub` with the group pattern; `add_groups` prepends the
`Services` and `Views` references before the existing children. -/
def subGroupUpdF (newChildren : List Char) : Nat → List Char → List Char
  | 0, l => l
  | Nat.succ f, l =>
    match splitFirst updGrpLit l with
    | none => l
    | some (a, b) =>
      match groupPatternTail b with
      | some (ws1, ws2, run2, after) =>
        a ++ updGrpLit ++ ws1 ++ isaGrpLit ++ ws2 ++ chMark ++ newChildren ++ run2 ++
          rpMark ++ subGroupUpdF newChildren f after
      | none => a ++ updGrpLit.take 1 ++ subGroupUpdF newChildren f (updGrpLit.drop 1 ++ b)

/-- Wrapper with enough fuel for the whole text. -/
def subGroupUpd (newChildren l : List Char) : List Char :=
  subGroupUpdF newChildren (l.length + 1) l

/-- The display-name pass: `re.sub` with the pattern formed by the
display-name key, a quote, one or more non-quote characters, and a
closing quote-and-semicolon, replacing every match by the fixed new
display-name setting. -/
def subDisplayNameF : Nat → List Char → List Char
  | 0, l => l
  | Nat.succ f, l =>
    match splitFirst displayLit l with
    | none => l
    | some (a, b) =>
      let run := b.takeWhile (fun c => c ≠ '"')
      if run ≠ [] ∧ quoteSemi.isPrefixOf (b.drop run.length) then
        a ++ displayNew ++ subDisplayNameF f (b.drop (run.length + 2))
      else a ++ displayLit.take 1 ++ subDisplayNameF f (displayLit.drop 1 ++ b)

/-- Wrapper with enough fuel for the whole text. -/
def subDisplayName (l : List Char) : List Char := subDisplayNameF (l.length + 1) l

/-- File-reference entry generated by this script (the path is quoted
here, unlike in `add_files_to_xcode.py`). -/
def updFileRefEntry (refs : String → String) (pn : String × String) : List Char :=
  "\t\t".data ++ (refs pn.2).data ++ " /* ".data ++ pn.2.data ++
    " */ = \x7bisa = PBXFileReference; lastKnownFileType = sourcecode.swift; path = \"".data ++
    pn.1.data ++ "\"; sourceTree = \"<group>\"; \x7d;\n".data

/-- Build-file entry generated by this script. -/
def updBuildEntry (refs builds : String → String) (pn : String × String) : List Char :=
  "\t\t".data ++ (builds pn.2).data ++ " /* ".data ++ pn.2.data ++
    " in Sources */ = \x7bisa = PBXBuildFile; fileRef = ".data ++
    (refs pn.2).data ++ " /* ".data ++ pn.2.data ++ " */; \x7d;\n".data

/-- `Sources`-phase reference appended by `add_sources`. -/
def updSourceRef (builds : String → String) (pn : String × String) : List Char :=
  "\n\t\t\t\t".data ++ (builds pn.2).data ++ " /* ".data ++ pn.2.data ++ " in Sources */,".data

/-- Group child reference used in the new group definitions. -/
def updGroupChildRef (refs : String → String) (pn : String × String) : List Char :=
  "\n\t\t\t\t".data ++ (refs pn.2).data ++ " /* ".data ++ pn.2.data ++ " */,".data

/-- Concatenation over the fixed `new_files` list, in order. -/
def joinOver (entry : String × String → List Char) (l : List (String × String)) : List Char :=
  l.foldr (fun pn acc => entry pn ++ acc) []

/-- The two group definitions appended before the `PBXGroup` end marker. -/
def newGroupsText (refs : String → String) (svcId viewsId : String) : List Char :=
  "\n\t\t".data ++ svcId.data ++ " /* Services */ = \x7b\n\t\t\tisa = PBXGroup;\n\t\t\tchildren = (".data ++
    joinOver (updGroupChildRef refs)
      (newFilesList.filter (fun pn => "Services/".data.isPrefixOf pn.1.data)) ++
    "\n\t\t\t);\n\t\t\tpath = Services;\n\t\t\tsourceTree = \"<group>\";\n\t\t\x7d;\n\t\t".data ++
    viewsId.data ++ " /* Views */ = \x7b\n\t\t\tisa = PBXGroup;\n\t\t\tchildren = (".data ++
    joinOver (updGroupChildRef refs)
      (newFilesList.filter (fun pn => "Views/".data.isPrefixOf pn.1.data)) ++
    "\n\t\t\t);\n\t\t\tpath = Views;\n\t\t\tsourceTree = \"<group>\";\n\t\t\x7d;\n".data

/-- Children prepended to the `Craig-O-Clean` group by `add_groups`. -/
def newTopChildren (svcId viewsId : String) : List Char :=
  "\n\t\t\t\t".data ++ svcId.data ++ " /* Services */,\n\t\t\t\t".data ++
    viewsId.data ++ " /* Views */,".data

/-- The whole script body of `update_xcode_project.py`, in statement
order: the two section-marker splices, the two `re.sub` passes, the
group-definition splice, and the four build-setting rewrites. -/
def updateXcodeProject (refs builds : String → String) (svcId viewsId : String)
    (content : List Char) : List Char :=
  let c1 := replaceAll feMark (joinOver (updFileRefEntry refs) newFilesList ++ feMark) content
  let c2 := replaceAll beMark (joinOver (updBuildEntry refs builds) newFilesList ++ beMark) c1
  let c3 := subSourcesUpd (joinOver (updSourceRef builds) newFilesList) c2
  let c4 := subGroupUpd (newTopChildren svcId viewsId) c3
  let c5 := replaceAll geMark (newGroupsText refs svcId viewsId ++ geMark) c4
  let c6 := replaceAll dep13 dep14 c5
  let c7 := replaceAll sbYes sbNo c6
  let c8 := replaceAll prodOld prodNew c7
  subDisplayName c8

/-- A manifest in which the matched `PBXBuildFile` section text occurs
twice (and the other sections once). -/
def dupSectionManifest : List Char :=
  ("/* Begin PBXBuildFile section */\nOLD\n/* End PBXBuildFile section */\n" ++
   "/* Begin PBXBuildFile section */\nOLD\n/* End PBXBuildFile section */\n" ++
   "/* Begin PBXFileReference section */\nFR\n/* End PBXFileReference section */\n" ++
   "S /* Sources */ = \x7bfiles = (\nCC,\n); \x7d;\n").data

/-- UUID map used in the C3 counterexample. -/
def cRefs : String → String := fun _ => "RNEW"

/-- UUID map used in the C3 counterexample. -/
def cBuilds : String → String := fun _ => "BNEW"

/-! ## Embedding of `sync-xcode-project.py`, `cleanup_old_backups`

The function globs `<project-file>.backup-*`, sorts the resulting path
list with `sorted(..., reverse=True)` (descending code-point order, the
order Python gives strings) and, when more than five backups exist,
removes every path after the first five of the sorted list.  `glob`
returns each path at most once, which is the `Nodup` hypothesis. -/

/-- Python string `<`: lexicographic comparison of code points. -/
def lexLt : List Char → List Char → Bool
  | [], [] => false
  | [], _ :: _ => true
  | _ :: _, [] => false
  | a :: as, b :: bs =>
    if a.toNat < b.toNat then true
    else if b.toNat < a.toNat then false
    else lexLt as bs

/-- Insert into a descending-sorted list (used to model `sorted`). -/
def insertDesc (x : String) : List String → List String
  | [] => [x]
  | y :: ys => if lexLt y.data x.data then x :: y :: ys else y :: insertDesc x ys

/-- `sorted(backups, reverse=True)`. -/
def sortDesc (l : List String) : List String := l.foldr insertDesc []

/-- The backup files removed by `cleanup_old_backups`. -/
def cleanupRemoved (backups : List String) : List String :=
  if 5 < backups.length then (sortDesc backups).drop 5 else []

/-- The backup files still on disk afterwards. -/
def cleanupRemaining (backups : List String) : List String :=
  backups.filter (fun f => decide (¬ f ∈ cleanupRemoved backups))

/-- The "not strictly below" relation of the descending sort. -/
def descRel (a b : String) : Prop := lexLt a.data b.data = false

/-! ## Effect traces for the interactive scripts (claim C8)

The screenshot and sync scripts are straight-line: each run issues a
linear sequence of externally visible effects (terminal output, fixed
`time.sleep` delays, blocking reads of stdin via `input()`, and
synchronous `subprocess.run` waits).  The trace of
`ScreenshotCapture.interactive_prompt`, of the confirmation segment of
`sync_xcode_project.main`, and of `ScreenshotCapture.capture_screen`
are embedded below; an effect "suspends" when the interpreter blocks in
it (sleeping, waiting for stdin, or waiting for a child process). -/

/-- Externally visible effects of the straight-line scripts. -/
inductive Effect where
  | sleepFor (secs : ℚ)
  | promptInput (prompt : String)
  | runProcess (cmd : List String)
  | output (s : String)
deriving DecidableEq

/-- Effects at which the single-threaded interpreter blocks. -/
def suspends : Effect → Bool
  | .sleepFor _ => true
  | .promptInput _ => true
  | .runProcess _ => true
  | .output _ => false

/-- Whether an effect is a fixed sleep delay. -/
def isFixedSleep : Effect → Bool
  | .sleepFor _ => true
  | _ => false

/-- Trace of `ScreenshotCapture.interactive_prompt(message)`: three
prints followed by `input("Press ENTER when ready...")`, which blocks
until the user presses enter. -/
def interactivePromptEffects (message : String) : List Effect :=
  [.output ("\n" ++ String.mk (List.replicate 60 '=')),
   .output message,
   .output (String.mk (List.replicate 60 '=')),
   .promptInput "Press ENTER when ready..."]

/-- Trace of the confirmation segment of `sync_xcode_project.main`
(lines printing the missing files and then asking for `y/n` on stdin;
the ANSI colour sequences around the text are immaterial here). -/
def syncConfirmEffects (missing : List String) : List Effect :=
  .output ("Found " ++ toString missing.length ++ " missing files:") ::
    missing.map (fun f => .output ("  - " ++ f)) ++
    [.promptInput "Add these files to the Xcode project? (y/n): "]

/-- Trace of `ScreenshotCapture.capture_screen(filename, delay)`: an
optional announced fixed sleep, then a synchronous `screencapture` run
and a confirmation print. -/
def captureScreenEffects (dir filename : String) (delay : ℚ) : List Effect :=
  (if 0 < delay then
    [.output "Waiting before capture...", .sleepFor delay]
  else []) ++
  [.runProcess ["screencapture", "-x", dir ++ "/" ++ filename],
   .output ("Captured: " ++ filename)]

/-! ## Embedding of `scripts/generate-test-report.py`

`TestLogParser` scans each log file line by line with anchored
(`re.match`) patterns: test-case start/passed/failed lines, `error:` and
`warning:` lines.  Durations are parsed with Python `float(...)`, which
raises `ValueError` on strings such as `1..2` that the regex group
`[\d.]+` still accepts; an uncaught exception aborts the interpreter
with exit status 1.  Durations are modelled as exact rationals. -/

/-- `\w` of the patterns (ASCII; Xcode test identifiers are ASCII). -/
def wordChar (c : Char) : Bool := c.isAlphanum || c = '_'

/-- `[\d.]` of the duration group. -/
def durChar (c : Char) : Bool := c.isDigit || c = '.'

/-- Consume an exact literal from the front, as an anchored regex does. -/
def dropLit (lit l : List Char) : Option (List Char) :=
  if lit.isPrefixOf l then some (l.drop lit.length) else none

/-- Greedy `X+` for a character class: the maximal non-empty run. -/
def takeWhile1 (p : Char → Bool) (l : List Char) : Option (List Char × List Char) :=
  match l.takeWhile p with
  | [] => none
  | c :: cs => some (c :: cs, l.dropWhile p)

/-- Literal pieces of the test-case patterns. -/
def tcHead : List Char := "Test Case \x27-[".data

/-- Literal `]' ` after the test name. -/
def sqSep : List Char := "]\x27 ".data

/-- Tail literal of `TEST_CASE_START`. -/
def startedLit : List Char := "started.".data

/-- Keyword-plus-parenthesis literal of `TEST_CASE_PASSED`. -/
def passedLit : List Char := "passed (".data

/-- Keyword-plus-parenthesis literal of `TEST_CASE_FAILED`. -/
def failedLit : List Char := "failed (".data

/-- Literal closing the duration group. -/
def secondsLit : List Char := " seconds).".data

/-- Shared head of the three test-case patterns:
`Test Case '-\[(\w+) (\w+)\]' `. -/
def headParse (l : List Char) : Option (List Char × List Char × List Char) :=
  match dropLit tcHead l with
  | none => none
  | some l1 =>
    match takeWhile1 wordChar l1 with
    | none => none
    | some (cls, l2) =>
      match dropLit [' '] l2 with
      | none => none
      | some l3 =>
        match takeWhile1 wordChar l3 with
        | none => none
        | some (nm, l4) =>
          match dropLit sqSep l4 with
          | none => none
          | some l5 => some (cls, nm, l5)

/-- `TEST_CASE_START.match(line)` (trailing text is allowed). -/
def matchStart (l : List Char) : Option (List Char × List Char) :=
  match headParse l with
  | none => none
  | some (cls, nm, r) => (dropLit startedLit r).map (fun _ => (cls, nm))

/-- `TEST_CASE_PASSED`/`TEST_CASE_FAILED` matching, parameterised by the
keyword literal; returns class, name and the raw duration group. -/
def matchKw (kw : List Char) (l : List Char) : Option (List Char × List Char × List Char) :=
  match headParse l with
  | none => none
  | some (cls, nm, r) =>
    match dropLit kw r with
    | none => none
    | some r1 =>
      match takeWhile1 durChar r1 with
      | none => none
      | some (ds, r2) => (dropLit secondsLit r2).map (fun _ => (cls, nm, ds))

/-- Numeric value of a digit string. -/
def digitsNat (l : List Char) : Nat := l.foldl (fun acc c => acc * 10 + (c.toNat - 48)) 0

/-- Python `float(...)` on a `[\d.]+` group: accepted exactly when there
is at most one dot and at least one digit; the value is exact. -/
def pyFloat (l : List Char) : Option ℚ :=
  if l.count '.' ≤ 1 ∧ l.any Char.isDigit then
    some ((digitsNat (l.takeWhile (fun c => c ≠ '.')) : ℚ) +
      (digitsNat ((l.dropWhile (fun c => c ≠ '.')).drop 1) : ℚ) /
        (10 : ℚ) ^ ((l.dropWhile (fun c => c ≠ '.')).drop 1).length)
  else none

/-- `(.+):(\d+): <sep>(.+)` head attempt right after the first group:
a colon, a maximal non-empty digit run, the separator, then a non-empty
remainder. -/
def tryColonAt (sep : List Char) : List Char → Option (List Char × List Char)
  | ':' :: r =>
    let ds := r.takeWhile Char.isDigit
    if ds ≠ [] ∧ sep.isPrefixOf (r.drop ds.length) then
      let g3 := (r.drop ds.length).drop sep.length
      if g3 ≠ [] then some (ds, g3) else none
    else none
  | _ => none

/-- `re.match(r'(.+):(\d+): <kind>: (.+)', line)`: the greedy `(.+)`
makes the split point the rightmost one at which the rest matches. -/
def matchSepLine (sep : List Char) : List Char → Option (List Char × List Char × List Char)
  | [] => none
  | c :: rest =>
    match matchSepLine sep rest with
    | some (g1, ds, g3) => some (c :: g1, ds, g3)
    | none => (tryColonAt sep rest).map (fun dg => ([c], dg.1, dg.2))

/-- Separator of `ERROR_LINE`. -/
def errSep : List Char := ": error: ".data

/-- Separator of `WARNING_LINE`. -/
def warnSep : List Char := ": warning: ".data

/-- Status of a parsed test case. -/
inductive TestStatus where
  | passed
  | failed
  | skipped
  | error
deriving DecidableEq

/-- A parsed test-case record. -/
structure TestCase where
  name : String
  className : String
  status : TestStatus
  duration : ℚ
  errorMessage : Option String

/-- Mutable state of `TestLogParser`. -/
structure PState where
  cases : List TestCase
  errors : List (String × Nat × String)
  warnings : List (String × Nat × String)

/-- Python whitespace (`str.strip` default set, ASCII). -/
def pyStrip (l : List Char) : List Char :=
  ((l.dropWhile isPySpace).reverse.dropWhile isPySpace).reverse

/-- The `_find_error_context` predicate:
`"XCTAssert" in line or "failed" in line.lower()`. -/
def ctxPred (line : String) : Bool :=
  containsSub "XCTAssert".data line.data ||
    containsSub "failed".data (line.data.map Char.toLower)

/-- `_find_error_context(lines, i)`: scan the up-to-ten preceding lines
in order and return the first matching one, stripped.  `seen` is the
list of lines before the current one. -/
def findErrorContext (seen : List String) : Option String :=
  ((seen.drop (seen.length - 10)).find? ctxPred).map (fun s => String.mk (pyStrip s.data))

/-- One iteration of the `parse_log_file` loop, in source order:
start, passed, failed, error, warning; the start branch only assigns
variables that are never read again. -/
def parseStep (seen : List String) (line : String) (st : PState) : Except String PState :=
  let l := line.data
  match matchStart l with
  | some _ => .ok st
  | none =>
    match matchKw passedLit l with
    | some (cls, nm, ds) =>
      match pyFloat ds with
      | none => .error "ValueError: could not convert string to float"
      | some d => .ok { st with cases := st.cases ++
          [⟨String.mk nm, String.mk cls, TestStatus.passed, d, none⟩] }
    | none =>
      match matchKw failedLit l with
      | some (cls, nm, ds) =>
        match pyFloat ds with
        | none => .error "ValueError: could not convert string to float"
        | some d => .ok { st with cases := st.cases ++
            [⟨String.mk nm, String.mk cls, TestStatus.failed, d, findErrorContext seen⟩] }
      | none =>
        match matchSepLine errSep l with
        | some (g1, ds, g3) => .ok { st with errors := st.errors ++
            [(String.mk g1, digitsNat ds, String.mk g3)] }
        | none =>
          match matchSepLine warnSep l with
          | some (g1, ds, g3) => .ok { st with warnings := st.warnings ++
              [(String.mk g1, digitsNat ds, String.mk g3)] }
          | none => .ok st

/-- The `parse_log_file` loop over the lines of one file, threading the
already-seen prefix for the error-context lookback. -/
def parseLinesGo : List String → List String → PState → Except String PState
  | _, [], st => .ok st
  | seen, l :: rest, st =>
    match parseStep seen l st with
    | .error e => .error e
    | .ok st' => parseLinesGo (seen ++ [l]) rest st'

/-- `parse_log_file` on one file's lines. -/
def parseLogLines (lines : List String) (st : PState) : Except String PState :=
  parseLinesGo [] lines st

/-- `parse_all_logs`: every log file in turn, one shared parser state. -/
def parseAllLogs (files : List (List String)) : Except String PState :=
  files.foldlM (fun st f => parseLogLines f st) ⟨[], [], []⟩

/-- `passed_tests` of a suite. -/
def countPassed (cases : List TestCase) : Nat :=
  (cases.filter (fun tc => decide (tc.status = TestStatus.passed))).length

/-- `failed_tests` of a suite. -/
def countFailed (cases : List TestCase) : Nat :=
  (cases.filter (fun tc => decide (tc.status = TestStatus.failed))).length

/-- The `summary` block of `TestReport.to_dict()` (counts only). -/
structure Summary where
  totalSuites : Nat
  totalTests : Nat
  totalPassed : Nat
  totalFailed : Nat
deriving DecidableEq

/-- `main` wraps all parsed cases into one suite, or none when no test
case was parsed. -/
def suitesOf (cases : List TestCase) : List (List TestCase) :=
  if cases.isEmpty then [] else [cases]

/-- The report summary computed by `TestReport.to_dict()`. -/
def summaryOf (cases : List TestCase) : Summary :=
  { totalSuites := (suitesOf cases).length
    totalTests := ((suitesOf cases).map List.length).sum
    totalPassed := ((suitesOf cases).map countPassed).sum
    totalFailed := ((suitesOf cases).map countFailed).sum }

/-- The whole generator run on the given log files: the parse pipeline
followed by the summary (report writing does not affect the outcome);
an uncaught `ValueError` from `float(...)` aborts the run. -/
def generatorRun (files : List (List String)) : Except String Summary :=
  match parseAllLogs files with
  | .error e => .error e
  | .ok st => .ok (summaryOf st.cases)

/-- The process exit status: `main` returns 1 when
`summary["total_failed"] > 0` and 0 otherwise, and an uncaught
exception makes the interpreter exit with status 1. -/
def generatorExitCode (files : List (List String)) : Nat :=
  match generatorRun files with
  | .error _ => 1
  | .ok s => if 0 < s.totalFailed then 1 else 0

/-- `TestSuite.pass_rate`. -/
def passRate (cases : List TestCase) : ℚ :=
  if cases.length = 0 then 0
  else ((countPassed cases : ℚ) / (cases.length : ℚ)) * 100

/-- The pass rate printed by the Markdown and text reports:
`(total_passed / max(total_tests, 1)) * 100`. -/
def summaryPassRate (s : Summary) : ℚ :=
  ((s.totalPassed : ℚ) / ((max s.totalTests 1 : Nat) : ℚ)) * 100

/-- Decidable equality of run outcomes (used by concrete evaluations). -/
instance {α β : Type} [DecidableEq α] [DecidableEq β] : DecidableEq (Except α β) := fun x y =>
  match x, y with
  | .error a, .error b =>
    if h : a = b then .isTrue (by rw [h]) else .isFalse (fun hc => h (Except.error.inj hc))
  | .ok a, .ok b =>
    if h : a = b then .isTrue (by rw [h]) else .isFalse (fun hc => h (Except.ok.inj hc))
  | .error _, .ok _ => .isFalse (fun hc => Except.noConfusion hc)
  | .ok _, .error _ => .isFalse (fun hc => Except.noConfusion hc)

/-- The log line of the C5 counterexample: it matches
`TEST_CASE_PASSED`, but its duration group `1..2` makes `float(...)`
raise an uncaught `ValueError`. -/
def badDurationLine : String := "Test Case \x27-[A b]\x27 passed (1..2 seconds)."

/-- Test-case line with the given keyword, class/test names and raw
duration group; `TEST_CASE_PASSED` lines are `kwLine passedLit ...`. -/
def kwLine (kw cls nm ds : List Char) : List Char :=
  tcHead ++ (cls ++ (' ' :: (nm ++ (sqSep ++ (kw ++ (ds ++ secondsLit))))))

/-! ## Embedding of `scripts/analyze_test_results.py`

JSON values loaded by `json.load` are modelled by `PyVal`; each helper
mirrors the dynamic behaviour of the Python operation it names,
returning `Except String` where Python would raise (`AttributeError`,
`TypeError`, ...).  Each analyzer's body is wrapped exactly as in the
source: `try: ... except Exception as e: return {'error': str(e)}`. -/

/-- A Python/JSON value. -/
inductive PyVal where
  | pyNone
  | pyBool (b : Bool)
  | num (q : ℚ)
  | str (s : String)
  | list (l : List PyVal)
  | dict (l : List (String × PyVal))

/-- `v.get(k, dflt)`: only dictionaries have `.get`. -/
def pyGetE (v : PyVal) (k : String) (dflt : PyVal) : Except String PyVal :=
  match v with
  | .dict l => .ok ((List.lookup k l).getD dflt)
  | _ => .error "AttributeError: object has no attribute get"

/-- `len(v)`. -/
def pyLen (v : PyVal) : Except String Nat :=
  match v with
  | .list l => .ok l.length
  | .str s => .ok s.length
  | .dict l => .ok l.length
  | _ => .error "TypeError: object has no len()"

/-- `for x in v`: lists yield elements, strings their characters,
dictionaries their keys. -/
def pyIterate (v : PyVal) : Except String (List PyVal) :=
  match v with
  | .list l => .ok l
  | .str s => .ok (s.data.map (fun c => .str (String.mk [c])))
  | .dict l => .ok (l.map (fun kv => .str kv.1))
  | _ => .error "TypeError: object is not iterable"

/-- `v.upper()`: strings only. -/
def pyUpper (v : PyVal) : Except String String :=
  match v with
  | .str s => .ok (String.mk (s.data.map Char.toUpper))
  | _ => .error "AttributeError: object has no attribute upper"

/-- `v[:50]`: strings and lists are sliceable. -/
def pySlice50 (v : PyVal) : Except String PyVal :=
  match v with
  | .str s => .ok (.str (String.mk (s.data.take 50)))
  | .list l => .ok (.list (l.take 50))
  | _ => .error "TypeError: object is not subscriptable"

/-- `v > 1.0`: numbers (Booleans count as 0/1) compare; anything else
raises. -/
def pyGt1 (v : PyVal) : Except String Bool :=
  match v with
  | .num q => .ok (decide (1 < q))
  | .pyBool _ => .ok false
  | _ => .error "TypeError: not supported between instances"

/-- `str(v)`, simplified: the exact rendering of floats and containers
is immaterial (it only feeds the `error_summary` keys, which no claim
inspects). -/
def pyStrSimple (v : PyVal) : String :=
  match v with
  | .pyNone => "None"
  | .pyBool b => if b then "True" else "False"
  | .num q => toString q
  | .str s => s
  | .list _ => "[...]"
  | .dict _ => "\x7b...\x7d"

/-- `k in v`: key test for dictionaries, substring test for strings,
membership for lists (only string elements can equal a string key). -/
def pyIn (k : String) (v : PyVal) : Except String Bool :=
  match v with
  | .dict l => .ok (List.lookup k l).isSome
  | .str s => .ok (containsSub k.data s.data)
  | .list l => .ok (l.any (fun e => match e with | .str s => decide (s = k) | _ => false))
  | _ => .error "TypeError: argument is not iterable"

/-- Entries of a dictionary value (used only where the value is known to
be a dictionary because `.get` already succeeded on it). -/
def pyDictEntries (v : PyVal) : List (String × PyVal) :=
  match v with
  | .dict l => l
  | _ => []

/-- One entry of `analysis['errors']`. -/
structure ErrorEntry where
  level : String
  category : PyVal
  message : PyVal
  timestamp : PyVal
  errObj : PyVal
  stackTrace : PyVal

/-- One entry of `analysis['warnings']`. -/
structure WarnEntry where
  category : PyVal
  message : PyVal
  timestamp : PyVal

/-- One entry of `analysis['slow_operations']`. -/
structure SlowOp where
  operation : PyVal
  duration : PyVal
  timestamp : PyVal

/-- The analysis dictionary built by `analyze_app_logs`. -/
structure AppAnalysis where
  totalLogs : Nat
  errors : List ErrorEntry
  warnings : List WarnEntry
  criticalErrors : List (List (String × PyVal))
  performanceMetrics : List PyVal
  uiEvents : PyVal
  errorSummary : List (String × Nat)
  slowOperations : List SlowOp

/-- `defaultdict(int)` increment, preserving insertion order. -/
def incrKey (k : String) : List (String × Nat) → List (String × Nat)
  | [] => [(k, 1)]
  | (k', n) :: rest => if k' = k then (k', n + 1) :: rest else (k', n) :: incrKey k rest

/-- One iteration of the `for log in data.get('logs', [])` loop. -/
def logStep (acc : AppAnalysis) (log : PyVal) : Except String AppAnalysis := do
  let lvRaw ← pyGetE log "level" (.str "")
  let lv ← pyUpper lvRaw
  let category ← pyGetE log "category" (.str "Unknown")
  let message ← pyGetE log "message" (.str "")
  if lv = "ERROR" ∨ lv = "CRITICAL" then do
    let ts ← pyGetE log "timestamp" .pyNone
    let eo ← pyGetE log "error" .pyNone
    let stk ← pyGetE log "stackTrace" .pyNone
    let msg50 ← pySlice50 message
    let key := pyStrSimple category ++ ":" ++ pyStrSimple msg50
    let acc1 := { acc with
      errors := acc.errors ++ [⟨lv, category, message, ts, eo, stk⟩],
      errorSummary := incrKey key acc.errorSummary }
    if lv = "CRITICAL" then
      pure { acc1 with criticalErrors := acc1.criticalErrors ++ [pyDictEntries log] }
    else
      pure acc1
  else if lv = "WARNING" then do
    let ts ← pyGetE log "timestamp" .pyNone
    pure { acc with warnings := acc.warnings ++ [⟨category, message, ts⟩] }
  else
    pure acc

/-- One iteration of the `for metric in metrics` loop. -/
def metricStep (acc : AppAnalysis) (metric : PyVal) : Except String AppAnalysis := do
  let duration ← pyGetE metric "duration" (.num 0)
  let operation ← pyGetE metric "operation" (.str "Unknown")
  let isSlow ← pyGt1 duration
  if isSlow then do
    let ts ← pyGetE metric "timestamp" .pyNone
    pure { acc with slowOperations := acc.slowOperations ++ [⟨operation, duration, ts⟩] }
  else
    pure acc

/-- Numeric view of a sort key (Booleans are 0/1 numbers in Python). -/
def keyNum : PyVal → Option ℚ
  | .num q => some q
  | .pyBool b => some (if b then 1 else 0)
  | _ => none

/-- Stable-enough descending insertion by the numeric key. -/
def insertDescQ (x : PyVal × ℚ) : List (PyVal × ℚ) → List (PyVal × ℚ)
  | [] => [x]
  | y :: ys => if y.2 < x.2 then x :: y :: ys else y :: insertDescQ x ys

/-- `sorted(metrics, key=lambda x: x.get('duration', 0), reverse=True)[:10]`:
the key extraction can raise on non-dictionary metrics, and the
comparisons raise unless the keys are comparable — the log pipeline
only ever produces numeric durations, so comparability is modelled as
"all keys numeric" (no comparison happens for fewer than two metrics). -/
def sortedMetricsTop (ms : List PyVal) : Except String (List PyVal) := do
  let keyed ← ms.mapM (fun m => (pyGetE m "duration" (.num 0)).map (fun k => (m, k)))
  if keyed.length ≤ 1 then
    pure (ms.take 10)
  else
    match keyed.mapM (fun mk => (keyNum mk.2).map (fun q => (mk.1, q))) with
    | none => .error "TypeError: < not supported between instances"
    | some nk => pure (((nk.foldr insertDescQ []).map Prod.fst).take 10)

/-- The body of `analyze_app_logs` after a successful read and parse,
in statement order: `total_logs`, the log loop, the metrics loop, the
sorted top-ten metrics, and `ui_events`. -/
def bodyAppLogs (data : PyVal) : Except String AppAnalysis := do
  let logsVal ← pyGetE data "logs" (.list [])
  let nLogs ← pyLen logsVal
  let logs ← pyIterate logsVal
  let acc1 ← logs.foldlM logStep ⟨nLogs, [], [], [], [], .list [], [], []⟩
  let metricsVal ← pyGetE data "performanceMetrics" (.list [])
  let metrics ← pyIterate metricsVal
  let acc2 ← metrics.foldlM metricStep acc1
  let top ← sortedMetricsTop metrics
  let ui ← pyGetE data "uiEvents" (.list [])
  pure { acc2 with performanceMetrics := top, uiEvents := ui }

/-- Result of `analyze_app_logs`: either the analysis dictionary or the
`{'error': str(e)}` dictionary built by the `except` handler. -/
inductive AppLogsOut where
  | errDict (msg : String)
  | okDict (a : AppAnalysis)

/-- `analyze_app_logs`: the whole body, reading included, is wrapped in
`try/except Exception`. -/
def analyzeAppLogs (inp : Except String PyVal) : AppLogsOut :=
  match inp with
  | .error e => .errDict e
  | .ok data =>
    match bodyAppLogs data with
    | .error e => .errDict e
    | .ok a => .okDict a

/-- The fixed analysis dictionary built by `analyze_test_results` (the
loop over `actions` only performs dynamic checks; its body is `pass`). -/
structure TRAnalysis where
  totalTests : Nat
  passed : Nat
  failed : Nat
  skipped : Nat
  failures : List PyVal

/-- Body of `analyze_test_results` after a successful `json.load`. -/
def bodyTestResults (data : PyVal) : Except String TRAnalysis := do
  let hasActions ← pyIn "actions" data
  if hasActions then do
    let actions ← pyGetE data "actions" (.dict [])
    let vals ← pyGetE actions "_values" (.list [])
    let elems ← pyIterate vals
    let _ ← elems.foldlM (fun (_ : Unit) action => do
      let hasAR ← pyIn "actionResult" action
      if hasAR then do
        let ar ← pyGetE action "actionResult" (.dict [])
        let _testsRef ← pyGetE ar "testsRef" (.dict [])
        pure ()
      else
        pure ()) ()
    pure ⟨0, 0, 0, 0, []⟩
  else
    pure ⟨0, 0, 0, 0, []⟩

/-- Result of `analyze_test_results`. -/
inductive TROut where
  | errDict (msg : String)
  | okDict (a : TRAnalysis)

/-- `analyze_test_results`, with its `try/except Exception` wrapper. -/
def analyzeTestResults (inp : Except String PyVal) : TROut :=
  match inp with
  | .error e => .errDict e
  | .ok data =>
    match bodyTestResults data with
    | .error e => .errDict e
    | .ok a => .okDict a

/-! `analyze_test_log` scans the raw text with three `re.findall`
patterns (never raising), so its body is total. -/

/-- Case-insensitive anchored literal match. -/
def ciIsPrefixOf : List Char → List Char → Bool
  | [], _ => true
  | _ :: _, [] => false
  | p :: ps, c :: cs => (p.toLower == c.toLower) && ciIsPrefixOf ps cs

/-- `.` never crosses a newline without `re.DOTALL`. -/
def lineRest (l : List Char) : List Char := l.takeWhile (fun c => c ≠ '\n')

/-- End position of the last case-insensitive occurrence of `pat` in
`seg` starting at or after `minStart` (greedy `.*pat`). -/
def lastEndCi (pat seg : List Char) (minStart : Nat) : Option Nat :=
  (((List.range (seg.length + 1)).filter
      (fun i => decide (minStart ≤ i) && ciIsPrefixOf pat (seg.drop i))).getLast?).map
    (fun i => i + pat.length)

/-- Third alternative `XCTAssert.*failed` of the failure pattern. -/
def altMatch3 (l : List Char) : Option Nat :=
  if ciIsPrefixOf "xctassert".data l then lastEndCi "failed".data (lineRest l) 9
  else none

/-- Second alternative `Assertion failed`. -/
def altMatch2 (l : List Char) : Option Nat :=
  if ciIsPrefixOf "assertion failed".data l then some 16 else altMatch3 l

/-- Match length of
`Test Case.*failed|Assertion failed|XCTAssert.*failed` (IGNORECASE)
anchored at the head of `l`; alternatives are tried left to right. -/
def altMatchLen (l : List Char) : Option Nat :=
  if ciIsPrefixOf "test case".data l then
    match lastEndCi "failed".data (lineRest l) 9 with
    | some e => some e
    | none => altMatch2 l
  else altMatch2 l

/-- `re.findall` scan with the failure pattern: non-overlapping matches
left to right. -/
def scanFailures : Nat → List Char → List (List Char)
  | 0, _ => []
  | Nat.succ f, l =>
    match l with
    | [] => []
    | _ :: rest =>
      match altMatchLen l with
      | some n => l.take n :: scanFailures f (l.drop n)
      | none => scanFailures f rest

/-- Match length of `error:.*` (IGNORECASE) anchored at the head. -/
def errMatchLen (l : List Char) : Option Nat :=
  if ciIsPrefixOf "error:".data l then some (6 + (lineRest (l.drop 6)).length)
  else none

/-- `re.findall` scan with the build-error pattern. -/
def scanErrors : Nat → List Char → List (List Char)
  | 0, _ => []
  | Nat.succ f, l =>
    match l with
    | [] => []
    | _ :: rest =>
      match errMatchLen l with
      | some n => l.take n :: scanErrors f (l.drop n)
      | none => scanErrors f rest

/-- Match length of `Test Case.*\[.*\]` (case-sensitive) anchored at
the head: greedy, so the match runs to the last `]` preceded by some
`[` after the literal. -/
def tcCountMatchLen (l : List Char) : Option Nat :=
  if ("Test Case".data).isPrefixOf l then
    let seg := lineRest l
    match ((List.range seg.length).filter
        (fun i => decide (9 ≤ i) && decide (seg.getD i ' ' = '['))).head? with
    | none => none
    | some i =>
      (((List.range seg.length).filter
          (fun j => decide (i < j) && decide (seg.getD j ' ' = ']'))).getLast?).map
        (fun j => j + 1)
  else none

/-- `re.findall` count with the test-count pattern. -/
def scanTestCount : Nat → List Char → Nat
  | 0, _ => 0
  | Nat.succ f, l =>
    match l with
    | [] => 0
    | _ :: rest =>
      match tcCountMatchLen l with
      | some n => 1 + scanTestCount f (l.drop n)
      | none => scanTestCount f rest

/-- The analysis dictionary built by `analyze_test_log`. -/
structure TLAnalysis where
  testFailures : List String
  buildErrors : List String
  warnings : List String
  testCount : Nat

/-- Body of `analyze_test_log` after a successful read: three `findall`
scans, the first two truncated to twenty entries, `warnings` never
filled. -/
def bodyTestLog (content : String) : TLAnalysis :=
  { testFailures :=
      ((scanFailures (content.data.length + 1) content.data).map String.mk).take 20
    buildErrors :=
      ((scanErrors (content.data.length + 1) content.data).map String.mk).take 20
    warnings := []
    testCount := scanTestCount (content.data.length + 1) content.data }

/-- Result of `analyze_test_log`. -/
inductive TLOut where
  | errDict (msg : String)
  | okDict (a : TLAnalysis)

/-- `analyze_test_log`, with its `try/except Exception` wrapper; the
body itself cannot raise. -/
def analyzeTestLog (inp : Except String String) : TLOut :=
  match inp with
  | .error e => .errDict e
  | .ok content => .okDict (bodyTestLog content)

/-! ## `categorize_issues` and `generate_issue_report` -/

/-- The mutable lists of `TestResultAnalyzer`. -/
structure AnalyzerState where
  issues : List PyVal
  errors : List PyVal
  warnings : List PyVal
  performanceIssues : List PyVal
  uiIssues : List PyVal

/-- `app_analysis.get('critical_errors', [])`: the error dictionary (and
the initial `{}` of `main`) have no such key, so the default applies. -/
def appCriticalErrors : AppLogsOut → List (List (String × PyVal))
  | .errDict _ => []
  | .okDict a => a.criticalErrors

/-- `app_analysis.get('errors', [])`. -/
def appErrors : AppLogsOut → List ErrorEntry
  | .errDict _ => []
  | .okDict a => a.errors

/-- `app_analysis.get('warnings', [])`. -/
def appWarnings : AppLogsOut → List WarnEntry
  | .errDict _ => []
  | .okDict a => a.warnings

/-- `app_analysis.get('slow_operations', [])`. -/
def appSlowOps : AppLogsOut → List SlowOp
  | .errDict _ => []
  | .okDict a => a.slowOperations

/-- `d.get(k)` on a known dictionary, default `None`. -/
def dget (d : List (String × PyVal)) (k : String) : PyVal :=
  (List.lookup k d).getD .pyNone

/-- Issue dictionary appended for a critical error. -/
def critIssue (e : List (String × PyVal)) : PyVal :=
  .dict [("type", .str "critical_error"), ("severity", .str "critical"),
    ("category", dget e "category"), ("message", dget e "message"),
    ("source", .str "app_logs"), ("stackTrace", dget e "stackTrace")]

/-- Issue dictionary appended for a regular error. -/
def errIssue (e : ErrorEntry) : PyVal :=
  .dict [("type", .str "error"), ("severity", .str "high"),
    ("category", e.category), ("message", e.message), ("source", .str "app_logs")]

/-- Issue dictionary appended for a test failure. -/
def failIssue (f : PyVal) : PyVal :=
  .dict [("type", .str "test_failure"), ("severity", .str "high"),
    ("message", f), ("source", .str "test_execution")]

/-- Issue dictionary appended for a slow operation. -/
def perfIssue (s : SlowOp) : PyVal :=
  .dict [("type", .str "performance"), ("severity", .str "medium"),
    ("operation", s.operation), ("duration", s.duration), ("source", .str "app_logs")]

/-- Issue dictionary appended for a warning. -/
def warnIssue (w : WarnEntry) : PyVal :=
  .dict [("type", .str "warning"), ("severity", .str "low"),
    ("category", w.category), ("message", w.message), ("source", .str "app_logs")]

/-- The raw error dictionary as it sits in `analysis['errors']`. -/
def errEntryDict (e : ErrorEntry) : PyVal :=
  .dict [("level", .str e.level), ("category", e.category), ("message", e.message),
    ("timestamp", e.timestamp), ("error", e.errObj), ("stackTrace", e.stackTrace)]

/-- The raw warning dictionary as it sits in `analysis['warnings']`. -/
def warnEntryDict (w : WarnEntry) : PyVal :=
  .dict [("category", w.category), ("message", w.message), ("timestamp", w.timestamp)]

/-- The raw slow-operation dictionary. -/
def slowOpDict (s : SlowOp) : PyVal :=
  .dict [("operation", s.operation), ("duration", s.duration), ("timestamp", s.timestamp)]

/-- `categorize_issues(app_analysis, test_analysis, log_analysis)`:
five loops appending issue dictionaries with fixed severities (the
per-element appends of each loop amount to the list concatenations
below; `log_analysis` is an unused parameter in the source, and
`testFailures` stands for `test_analysis.get('test_failures', [])`). -/
def categorizeIssues (st : AnalyzerState) (app : AppLogsOut)
    (testFailures : List PyVal) : AnalyzerState :=
  let st1 := { st with
    issues := st.issues ++ (appCriticalErrors app).map critIssue,
    errors := st.errors ++ (appCriticalErrors app).map (fun e => PyVal.dict e) }
  let st2 := { st1 with
    issues := st1.issues ++ (appErrors app).map errIssue,
    errors := st1.errors ++ (appErrors app).map errEntryDict }
  let st3 := { st2 with
    issues := st2.issues ++ testFailures.map failIssue,
    errors := st2.errors ++ testFailures.map
      (fun f => PyVal.dict [("message", f), ("source", .str "test")]) }
  let st4 := { st3 with
    issues := st3.issues ++ (appSlowOps app).map perfIssue,
    performanceIssues := st3.performanceIssues ++ (appSlowOps app).map slowOpDict }
  { st4 with
    issues := st4.issues ++ (appWarnings app).map warnIssue,
    warnings := st4.warnings ++ (appWarnings app).map warnEntryDict }

/-- The `summary` block of `generate_issue_report`. -/
structure IssueSummary where
  totalIssues : Nat
  errors : Nat
  warnings : Nat
  performanceIssues : Nat
  uiIssues : Nat
deriving DecidableEq

/-- `generate_issue_report`: the summary counts are the `len(...)` of
the five accumulated lists. -/
def generateIssueReportSummary (st : AnalyzerState) : IssueSummary :=
  ⟨st.issues.length, st.errors.length, st.warnings.length,
    st.performanceIssues.length, st.uiIssues.length⟩

/-- Key lookup in an issue dictionary. -/
def issueField (v : PyVal) (k : String) : Option PyVal :=
  match v with
  | .dict d => List.lookup k d
  | _ => none

/-! ## Theorems and claim verdicts -/

/-! Lemmas connecting `splitFirst`, `containsSub` and `replaceAll`.  They
let us compute the effect of `str.replace` on a manifest that is given in
decomposed form. -/

theorem splitFirst_cons_pos {p : List Char} {c : Char} {rest : List Char}
    (h : p.isPrefixOf (c :: rest) = true) :
    splitFirst p (c :: rest) = some ([], (c :: rest).drop p.length) := by
  simp [splitFirst, h]

theorem splitFirst_cons_neg {p : List Char} {c : Char} {rest : List Char}
    (h : p.isPrefixOf (c :: rest) = false) :
    splitFirst p (c :: rest) =
      (splitFirst p rest).map (fun ab => (c :: ab.1, ab.2)) := by
  simp [splitFirst, h]

theorem isPrefixOf_eq_true_of_splitFirst_nil {p b : List Char}
    (h : splitFirst p [] = some ([], b)) : p.isPrefixOf ([] : List Char) = true := by
  by_cases hp : p.isPrefixOf ([] : List Char) = true
  · exact hp
  · simp [splitFirst, hp] at h

/-- If `p` does not occur in `l` then neither does it occur in any tail
reached by the `splitFirst` scan; packaged as: prepending a character
preserves occurrence. -/
theorem containsSub_cons_of_containsSub {p : List Char} {c : Char} {rest : List Char}
    (h : containsSub p rest = true) : containsSub p (c :: rest) = true := by
  unfold containsSub at *
  by_cases hp : p.isPrefixOf (c :: rest) = true
  · simp [splitFirst_cons_pos hp]
  · rw [splitFirst_cons_neg (Bool.eq_false_iff.mpr hp)]
    rcases Option.isSome_iff_exists.mp h with ⟨ab, hab⟩
    simp [hab]

theorem not_isPrefixOf_of_not_containsSub {p : List Char} {c : Char} {rest : List Char}
    (h : containsSub p (c :: rest) = false) : p.isPrefixOf (c :: rest) = false := by
  by_cases hp : p.isPrefixOf (c :: rest) = true
  · exfalso
    unfold containsSub at h
    rw [splitFirst_cons_pos hp] at h
    simp at h
  · exact Bool.eq_false_iff.mpr hp

theorem containsSub_tail_of_not_containsSub {p : List Char} {c : Char} {rest : List Char}
    (h : containsSub p (c :: rest) = false) : containsSub p rest = false := by
  by_cases hr : containsSub p rest = true
  · rw [containsSub_cons_of_containsSub hr] at h
    cases h
  · simpa using hr

/-- `str.replace` is the identity when the pattern does not occur. -/
theorem replaceAllF_id_of_not_containsSub {p r : List Char} :
    ∀ (f : Nat) (l : List Char), containsSub p l = false → replaceAllF p r f l = l := by
  intro f
  induction f with
  | zero => intro l _; rfl
  | succ f ih =>
    intro l h
    match l with
    | [] => rfl
    | c :: rest =>
      have hpre := not_isPrefixOf_of_not_containsSub h
      have htail := containsSub_tail_of_not_containsSub h
      simp [replaceAllF, hpre, ih rest htail]

theorem replaceAll_id_of_not_containsSub {p r l : List Char}
    (h : containsSub p l = false) : replaceAll p r l = l :=
  replaceAllF_id_of_not_containsSub l.length l h

theorem isPrefixOf_nil_iff {p : List Char} : p.isPrefixOf ([] : List Char) = true ↔ p = [] := by
  cases p <;> simp [List.isPrefixOf]

/-- The splice characterisation of `str.replace`: if the first occurrence
of `p` in `l` splits it as `a ++ p ++ b` and `p` does not occur again in
`b`, then replacing `p` by `r` yields `a ++ r ++ b`. -/
theorem replaceAllF_splice {p r : List Char} (hp : p ≠ []) :
    ∀ (f : Nat) (l a b : List Char), l.length ≤ f →
      splitFirst p l = some (a, b) → containsSub p b = false →
      replaceAllF p r f l = a ++ r ++ b := by
  intro f
  induction f with
  | zero =>
    intro l a b hlen hsplit _
    have hl : l = [] := List.eq_nil_of_length_eq_zero (Nat.le_zero.mp hlen)
    subst hl
    by_cases hpre : p.isPrefixOf ([] : List Char) = true
    · exact absurd (isPrefixOf_nil_iff.mp hpre) hp
    · simp [splitFirst, hpre] at hsplit
  | succ f ih =>
    intro l a b hlen hsplit hb
    match l with
    | [] =>
      by_cases hpre : p.isPrefixOf ([] : List Char) = true
      · exact absurd (isPrefixOf_nil_iff.mp hpre) hp
      · simp [splitFirst, hpre] at hsplit
    | c :: rest =>
      by_cases hpre : p.isPrefixOf (c :: rest) = true
      · rw [splitFirst_cons_pos hpre, Option.some_inj] at hsplit
        obtain ⟨h1, h2⟩ := Prod.ext_iff.mp hsplit
        dsimp at h1 h2
        subst h1
        subst h2
        simp only [replaceAllF, if_pos (And.intro hp hpre)]
        rw [replaceAllF_id_of_not_containsSub f _ hb]
        simp
      · rw [splitFirst_cons_neg (Bool.eq_false_iff.mpr hpre)] at hsplit
        rcases Option.map_eq_some'.mp hsplit with ⟨ab, hsp, heq⟩
        obtain ⟨h1, h2⟩ := Prod.ext_iff.mp heq
        dsimp at h1 h2
        subst h1
        subst h2
        have hrl : rest.length ≤ f := Nat.le_of_succ_le_succ hlen
        have hcond : ¬ (p ≠ [] ∧ p.isPrefixOf (c :: rest) = true) := fun hand => hpre hand.2
        simp only [replaceAllF]
        rw [if_neg hcond]
        rw [ih rest ab.1 ab.2 hrl hsp hb]
        simp

/-- `str.replace` on a string whose first `p`-occurrence splits it as
`a ++ p ++ b`, with no further occurrence in `b`, gives `a ++ r ++ b`. -/
theorem replaceAll_splice {p r l a b : List Char} (hp : p ≠ [])
    (hsplit : splitFirst p l = some (a, b)) (hb : containsSub p b = false) :
    replaceAll p r l = a ++ r ++ b :=
  replaceAllF_splice hp l.length l a b (Nat.le_refl _) hsplit hb

/-! ## Embedding of `update_xcode_project.py`

This script runs unconditionally on import: it reads the manifest, adds
file references and build files for a fixed list of ten Swift files by
splicing text in front of the section end markers, patches the `Sources`
build phase and the `Craig-O-Clean` group with `re.sub`, appends two new
group definitions, and then rewrites four build settings (deployment
target, app-sandbox flag, product name, bundle display name).  As
before, the random UUIDs are parameters. -/

/-- Helper: `containsSub p l = false` exactly when the scan fails. -/
theorem containsSub_eq_false_iff {p l : List Char} :
    containsSub p l = false ↔ splitFirst p l = none := by
  unfold containsSub
  cases h : splitFirst p l <;> simp [h]

/-! ## Identity lemmas for the `re.sub` scanners -/

theorem subSourcesUpd_id {newRefs l : List Char}
    (h : containsSub updSrcLit l = false) : subSourcesUpd newRefs l = l := by
  unfold subSourcesUpd
  simp [subSourcesUpdF, containsSub_eq_false_iff.mp h]

theorem subGroupUpd_id {newChildren l : List Char}
    (h : containsSub updGrpLit l = false) : subGroupUpd newChildren l = l := by
  unfold subGroupUpd
  simp [subGroupUpdF, containsSub_eq_false_iff.mp h]

theorem subDisplayName_id {l : List Char}
    (h : containsSub displayLit l = false) : subDisplayName l = l := by
  unfold subDisplayName
  simp [subDisplayNameF, containsSub_eq_false_iff.mp h]

theorem subSourcesUpdF_id {nr : List Char} :
    ∀ (f : Nat) {l : List Char}, containsSub updSrcLit l = false →
      subSourcesUpdF nr f l = l
  | 0, _, _ => rfl
  | Nat.succ _, _, h => by simp [subSourcesUpdF, containsSub_eq_false_iff.mp h]

theorem subGroupUpdF_id {nc : List Char} :
    ∀ (f : Nat) {l : List Char}, containsSub updGrpLit l = false →
      subGroupUpdF nc f l = l
  | 0, _, _ => rfl
  | Nat.succ _, _, h => by simp [subGroupUpdF, containsSub_eq_false_iff.mp h]

theorem subDisplayNameF_id :
    ∀ (f : Nat) {l : List Char}, containsSub displayLit l = false →
      subDisplayNameF f l = l
  | 0, _, _ => rfl
  | Nat.succ _, _, h => by simp [subDisplayNameF, containsSub_eq_false_iff.mp h]

/-- Splice form of the pinned `Sources`-phase `re.sub`: one successful
match, with the pattern head not occurring after it. -/
theorem subSourcesUpd_splice (nr : List Char) {l a b pre run2 after : List Char}
    (hs : splitFirst updSrcLit l = some (a, b))
    (hg : greedyPhaseTail b = some (pre, run2, after))
    (hn : containsSub updSrcLit after = false) :
    subSourcesUpd nr l =
      a ++ updSrcLit ++ pre ++ fpMark ++ run2 ++ nr ++ rpMark ++ after := by
  unfold subSourcesUpd
  simp only [subSourcesUpdF, hs, hg]
  rw [subSourcesUpdF_id l.length hn]

/-- Splice form of the `Craig-O-Clean` group `re.sub`. -/
theorem subGroupUpd_splice (nc : List Char) {l a b ws1 ws2 run2 after : List Char}
    (hs : splitFirst updGrpLit l = some (a, b))
    (hg : groupPatternTail b = some (ws1, ws2, run2, after))
    (hn : containsSub updGrpLit after = false) :
    subGroupUpd nc l =
      a ++ updGrpLit ++ ws1 ++ isaGrpLit ++ ws2 ++ chMark ++ nc ++ run2 ++
        rpMark ++ after := by
  unfold subGroupUpd
  simp only [subGroupUpdF, hs, hg]
  rw [subGroupUpdF_id l.length hn]

/-- Splice form of the display-name `re.sub`: one successful match,
with the pattern head not occurring after it. -/
theorem subDisplayName_splice {l a b run : List Char}
    (hs : splitFirst displayLit l = some (a, b))
    (ht : b.takeWhile (fun c => c ≠ '"') = run)
    (hne : run ≠ [])
    (hq : quoteSemi.isPrefixOf (b.drop run.length) = true)
    (hn : containsSub displayLit (b.drop (run.length + 2)) = false) :
    subDisplayName l = a ++ displayNew ++ b.drop (run.length + 2) := by
  unfold subDisplayName
  simp only [subDisplayNameF, hs, ht]
  rw [if_pos (And.intro hne hq)]
  rw [subDisplayNameF_id l.length hn]

theorem isPrefixOf_append_self : ∀ (lit x : List Char), lit.isPrefixOf (lit ++ x) = true
  | [], x => by cases x <;> rfl
  | c :: cs, x => by
    show (c == c && cs.isPrefixOf (cs ++ x)) = true
    rw [isPrefixOf_append_self cs x]
    simp

/-! ## Peeling lemmas

The witness manifests below are several thousand characters long, and a
direct kernel evaluation of a scan over them is too deep.  These lemmas
let a `splitFirst`/`containsSub` fact about a long concatenation be
established one short segment at a time: the side condition checks the
segment extended by the longest possible straddle (`p.length - 1`
characters) into the rest. -/

/-- Truncating the text to the pattern length does not change a prefix
test. -/
theorem isPrefixOf_take_eq :
    ∀ (p v : List Char) (k : Nat), p.length ≤ k →
      p.isPrefixOf (v.take k) = p.isPrefixOf v
  | [], _, _, _ => by simp [List.isPrefixOf]
  | _ :: _, [], _, _ => by simp
  | q :: p', c :: v', k, h => by
    match k, h with
    | Nat.succ k', h =>
      simp only [List.take_succ_cons, List.isPrefixOf]
      rw [isPrefixOf_take_eq p' v' k' (Nat.le_of_succ_le_succ h)]

/-- Truncating the second summand after the pattern can no longer match
does not change a prefix test over an append. -/
theorem isPrefixOf_append_take_eq :
    ∀ (p u v : List Char) (k : Nat), p.length ≤ u.length + k →
      p.isPrefixOf (u ++ v.take k) = p.isPrefixOf (u ++ v)
  | [], _, _, _, _ => by simp [List.isPrefixOf]
  | q :: p', [], v, k, h => by
    simpa using isPrefixOf_take_eq (q :: p') v k (by simpa using h)
  | q :: p', c :: u', v, k, h => by
    simp only [List.cons_append, List.isPrefixOf, List.append_eq]
    rw [isPrefixOf_append_take_eq p' u' v k
      (by simp only [List.length_cons] at h; omega)]

/-- Skipping lemma: if `p` has no occurrence starting inside `a` (checked
on `a` extended by the longest possible straddle into `b`), the first
occurrence in `a ++ b` is the first occurrence in `b`, shifted. -/
theorem splitFirst_append_skip :
    ∀ (a : List Char) {p b : List Char},
      containsSub p (a ++ b.take (p.length - 1)) = false →
      splitFirst p (a ++ b) = (splitFirst p b).map (fun xy => (a ++ xy.1, xy.2))
  | [], p, b, _ => by
    cases h : splitFirst p b <;> simp [h]
  | c :: a', p, b, h => by
    have h1 : p.isPrefixOf ((c :: a') ++ b.take (p.length - 1)) = false :=
      not_isPrefixOf_of_not_containsSub h
    have hlen : p.length ≤ (c :: a').length + (p.length - 1) := by
      simp only [List.length_cons]; omega
    rw [isPrefixOf_append_take_eq p (c :: a') b (p.length - 1) hlen] at h1
    have htail : containsSub p (a' ++ b.take (p.length - 1)) = false :=
      containsSub_tail_of_not_containsSub h
    have hrec := splitFirst_append_skip a' htail
    rw [List.cons_append, splitFirst_cons_neg (by simpa using h1), hrec]
    cases hs : splitFirst p b <;> simp

/-- Peel one pattern-free segment off a non-occurrence fact. -/
theorem containsSub_append_chain {p a b : List Char}
    (h1 : containsSub p (a ++ b.take (p.length - 1)) = false)
    (h2 : containsSub p b = false) : containsSub p (a ++ b) = false := by
  unfold containsSub
  rw [splitFirst_append_skip a h1, containsSub_eq_false_iff.mp h2]
  rfl

/-- Peel one pattern-free segment off a first-occurrence fact. -/
theorem splitFirst_chain {p a b x y : List Char}
    (h1 : containsSub p (a ++ b.take (p.length - 1)) = false)
    (h2 : splitFirst p b = some (x, y)) :
    splitFirst p (a ++ b) = some (a ++ x, y) := by
  rw [splitFirst_append_skip a h1, h2]
  rfl

/-- A match at the very front of the remaining text. -/
theorem splitFirst_head : ∀ {p : List Char}, p ≠ [] → ∀ (t : List Char),
    splitFirst p (p ++ t) = some ([], t)
  | c :: p', _, t => by
    rw [List.cons_append, splitFirst_cons_pos
      (by simpa using isPrefixOf_append_self (c :: p') t)]
    rw [← List.cons_append, List.drop_left]

/-- The first occurrence of `p` in `a ++ p ++ tail` is the explicit one,
when `p` does not occur earlier. -/
theorem splitFirst_here {p a tail : List Char} (hp : p ≠ [])
    (h1 : containsSub p (a ++ (p ++ tail).take (p.length - 1)) = false) :
    splitFirst p (a ++ (p ++ tail)) = some (a, tail) := by
  rw [splitFirst_chain h1 (splitFirst_head hp tail), List.append_nil]

/-- Concatenations are non-empty when the first part is. -/
theorem ne_nil_left {a b : List Char} (h : a ≠ []) : a ++ b ≠ [] := by
  intro hc
  rcases List.append_eq_nil.mp hc with ⟨h1, _⟩
  exact h h1

/-- Dropping a prefix and a two-character separator from an append. -/
theorem drop_len_plus2 {a q r : List Char} (h : q.length = 2) :
    (a ++ (q ++ r)).drop (a.length + 2) = r := by
  rw [← List.append_assoc, ← h, ← List.length_append]
  exact List.drop_left _ _

/-! ## Claims C1, C2, C3 -/

set_option maxRecDepth 100000 in
/-- Claim C1 (corrected), counterexample: the claim says the patching
scripts change only source-file entries of the manifest and leave every
other part of the text unchanged.  On a manifest that consists solely of
the deployment-target build setting — it contains no file-reference,
build-file, build-phase or group entry and none of the section markers
the script splices at — `update_xcode_project.py` still rewrites the
text, changing `13.0` to `14.0`. -/
theorem C1_counterexample_settings_rewrite :
    updateXcodeProject (fun _ => "X") (fun _ => "X") "S" "V" dep13 = dep14 ∧
    dep13 ≠ dep14 ∧
    containsSub bbMark dep13 = false ∧ containsSub beMark dep13 = false ∧
    containsSub frMark dep13 = false ∧ containsSub feMark dep13 = false ∧
    containsSub slMark dep13 = false ∧ containsSub geMark dep13 = false ∧
    containsSub updSrcLit dep13 = false ∧ containsSub updGrpLit dep13 = false := by
  decide

/-- Claim C1 (amended): the project-file patching scripts change only
source-file entries of the manifest and, in `update_xcode_project.py`,
the four build settings (deployment target, app-sandbox flag, product
name, bundle display name).  First conjunct (`add_files_to_xcode.py`):
on a well-formed manifest — the three sections found, each matched
section text occurring once, no `Core` group — the output is exactly the
original text with the new build-file, file-reference and `Sources`
entries spliced after the corresponding begin markers; the surrounding
text `p1`, `w1`, `w2`, `w3` and all pre-existing entries `m1`, `m2`,
`m3` are preserved verbatim.  Second conjunct
(`update_xcode_project.py`): on a manifest containing every patched
pattern exactly once, the output is exactly the original text with the
new file-reference, build-file, `Sources`-phase and group-children
entries and the two group definitions spliced at the matched patterns
and the four settings rewritten; every other segment `q1`–`q10`, the
phase interior `sp`/`ol` and the group interior `gw1`/`gw2`/`gc` are
preserved verbatim.  Third conjunct: a manifest containing none of the
patched patterns is returned completely unchanged by
`update_xcode_project.py`. -/
theorem C1_patch_frame :
    (∀ (p1 m1 w1 m2 w2 s1 m3 w3 : List Char) (files : List String)
        (refs builds : String → String),
      findSection bbMark beMark
        (p1 ++ (bbMark ++ m1 ++ beMark) ++ w1 ++ (frMark ++ m2 ++ feMark) ++ w2 ++
          (slMark ++ s1 ++ fpMark ++ m3 ++ rpMark) ++ w3) =
        some (p1, m1, w1 ++ (frMark ++ m2 ++ feMark) ++ w2 ++
          (slMark ++ s1 ++ fpMark ++ m3 ++ rpMark) ++ w3) →
      findSection frMark feMark
        (p1 ++ (bbMark ++ m1 ++ beMark) ++ w1 ++ (frMark ++ m2 ++ feMark) ++ w2 ++
          (slMark ++ s1 ++ fpMark ++ m3 ++ rpMark) ++ w3) =
        some (p1 ++ (bbMark ++ m1 ++ beMark) ++ w1, m2, w2 ++
          (slMark ++ s1 ++ fpMark ++ m3 ++ rpMark) ++ w3) →
      findSources
        (p1 ++ (bbMark ++ m1 ++ beMark) ++ w1 ++ (frMark ++ m2 ++ feMark) ++ w2 ++
          (slMark ++ s1 ++ fpMark ++ m3 ++ rpMark) ++ w3) =
        some (p1 ++ (bbMark ++ m1 ++ beMark) ++ w1 ++ (frMark ++ m2 ++ feMark) ++ w2,
          s1, m3, w3) →
      splitFirst (bbMark ++ m1 ++ beMark)
        (p1 ++ (bbMark ++ m1 ++ beMark) ++ w1 ++ (frMark ++ m2 ++ feMark) ++ w2 ++
          (slMark ++ s1 ++ fpMark ++ m3 ++ rpMark) ++ w3) =
        some (p1, w1 ++ (frMark ++ m2 ++ feMark) ++ w2 ++
          (slMark ++ s1 ++ fpMark ++ m3 ++ rpMark) ++ w3) →
      containsSub (bbMark ++ m1 ++ beMark)
        (w1 ++ (frMark ++ m2 ++ feMark) ++ w2 ++
          (slMark ++ s1 ++ fpMark ++ m3 ++ rpMark) ++ w3) = false →
      splitFirst (frMark ++ m2 ++ feMark)
        (p1 ++ (bbMark ++ joinEntries (buildEntry refs builds) files ++ m1 ++ beMark) ++ w1 ++
          (frMark ++ m2 ++ feMark) ++ w2 ++ (slMark ++ s1 ++ fpMark ++ m3 ++ rpMark) ++ w3) =
        some (p1 ++ (bbMark ++ joinEntries (buildEntry refs builds) files ++ m1 ++ beMark) ++ w1,
          w2 ++ (slMark ++ s1 ++ fpMark ++ m3 ++ rpMark) ++ w3) →
      containsSub (frMark ++ m2 ++ feMark)
        (w2 ++ (slMark ++ s1 ++ fpMark ++ m3 ++ rpMark) ++ w3) = false →
      splitFirst (slMark ++ s1 ++ fpMark ++ m3 ++ rpMark)
        (p1 ++ (bbMark ++ joinEntries (buildEntry refs builds) files ++ m1 ++ beMark) ++ w1 ++
          (frMark ++ joinEntries (fileRefEntry refs) files ++ m2 ++ feMark) ++ w2 ++
          (slMark ++ s1 ++ fpMark ++ m3 ++ rpMark) ++ w3) =
        some (p1 ++ (bbMark ++ joinEntries (buildEntry refs builds) files ++ m1 ++ beMark) ++ w1 ++
          (frMark ++ joinEntries (fileRefEntry refs) files ++ m2 ++ feMark) ++ w2, w3) →
      containsSub (slMark ++ s1 ++ fpMark ++ m3 ++ rpMark) w3 = false →
      findCore
        (p1 ++ (bbMark ++ joinEntries (buildEntry refs builds) files ++ m1 ++ beMark) ++ w1 ++
          (frMark ++ joinEntries (fileRefEntry refs) files ++ m2 ++ feMark) ++ w2 ++
          (slMark ++ s1 ++ fpMark ++ joinEntries (sourceRefEntry builds) files ++ m3 ++ rpMark) ++
          w3) = none →
      addFilesRun
        (p1 ++ (bbMark ++ m1 ++ beMark) ++ w1 ++ (frMark ++ m2 ++ feMark) ++ w2 ++
          (slMark ++ s1 ++ fpMark ++ m3 ++ rpMark) ++ w3) files refs builds =
      (true,
        p1 ++ (bbMark ++ joinEntries (buildEntry refs builds) files ++ m1 ++ beMark) ++ w1 ++
          (frMark ++ joinEntries (fileRefEntry refs) files ++ m2 ++ feMark) ++ w2 ++
          (slMark ++ s1 ++ fpMark ++ joinEntries (sourceRefEntry builds) files ++ m3 ++ rpMark) ++
          w3)) ∧
    (∀ (q1 q2 q3 q4 q5 q6 q7 q8 q9 q10 sp ol gw1 gw2 gc dnm : List Char)
        (refs builds : String → String) (svcId viewsId : String),
      splitFirst feMark
        (q1 ++ dep13 ++ q2 ++ sbYes ++ q3 ++ prodOld ++ q4 ++ displayLit ++ dnm ++
         quoteSemi ++ q5 ++ beMark ++ q6 ++ feMark ++ q7 ++ updSrcLit ++ sp ++ fpMark ++
         ol ++ rpMark ++ q8 ++ updGrpLit ++ gw1 ++ isaGrpLit ++ gw2 ++ chMark ++ gc ++
         rpMark ++ q9 ++ geMark ++ q10) =
      some (q1 ++ dep13 ++ q2 ++ sbYes ++ q3 ++ prodOld ++ q4 ++ displayLit ++ dnm ++
            quoteSemi ++ q5 ++ beMark ++ q6,
        q7 ++ updSrcLit ++ sp ++ fpMark ++ ol ++ rpMark ++ q8 ++ updGrpLit ++ gw1 ++
        isaGrpLit ++ gw2 ++ chMark ++ gc ++ rpMark ++ q9 ++ geMark ++ q10) →
      containsSub feMark
        (q7 ++ updSrcLit ++ sp ++ fpMark ++ ol ++ rpMark ++ q8 ++ updGrpLit ++ gw1 ++
         isaGrpLit ++ gw2 ++ chMark ++ gc ++ rpMark ++ q9 ++ geMark ++ q10) = false →
      splitFirst beMark
        (q1 ++ dep13 ++ q2 ++ sbYes ++ q3 ++ prodOld ++ q4 ++ displayLit ++ dnm ++
         quoteSemi ++ q5 ++ beMark ++ q6 ++ joinOver (updFileRefEntry refs) newFilesList ++
         feMark ++ q7 ++ updSrcLit ++ sp ++ fpMark ++ ol ++ rpMark ++ q8 ++ updGrpLit ++
         gw1 ++ isaGrpLit ++ gw2 ++ chMark ++ gc ++ rpMark ++ q9 ++ geMark ++ q10) =
      some (q1 ++ dep13 ++ q2 ++ sbYes ++ q3 ++ prodOld ++ q4 ++ displayLit ++ dnm ++
            quoteSemi ++ q5,
        q6 ++ joinOver (updFileRefEntry refs) newFilesList ++ feMark ++ q7 ++ updSrcLit ++
        sp ++ fpMark ++ ol ++ rpMark ++ q8 ++ updGrpLit ++ gw1 ++ isaGrpLit ++ gw2 ++
        chMark ++ gc ++ rpMark ++ q9 ++ geMark ++ q10) →
      containsSub beMark
        (q6 ++ joinOver (updFileRefEntry refs) newFilesList ++ feMark ++ q7 ++ updSrcLit ++
         sp ++ fpMark ++ ol ++ rpMark ++ q8 ++ updGrpLit ++ gw1 ++ isaGrpLit ++ gw2 ++
         chMark ++ gc ++ rpMark ++ q9 ++ geMark ++ q10) = false →
      splitFirst updSrcLit
        (q1 ++ dep13 ++ q2 ++ sbYes ++ q3 ++ prodOld ++ q4 ++ displayLit ++ dnm ++
         quoteSemi ++ q5 ++ joinOver (updBuildEntry refs builds) newFilesList ++ beMark ++
         q6 ++ joinOver (updFileRefEntry refs) newFilesList ++ feMark ++ q7 ++ updSrcLit ++
         sp ++ fpMark ++ ol ++ rpMark ++ q8 ++ updGrpLit ++ gw1 ++ isaGrpLit ++ gw2 ++
         chMark ++ gc ++ rpMark ++ q9 ++ geMark ++ q10) =
      some (q1 ++ dep13 ++ q2 ++ sbYes ++ q3 ++ prodOld ++ q4 ++ displayLit ++ dnm ++
            quoteSemi ++ q5 ++ joinOver (updBuildEntry refs builds) newFilesList ++
            beMark ++ q6 ++ joinOver (updFileRefEntry refs) newFilesList ++ feMark ++ q7,
        sp ++ fpMark ++ ol ++ rpMark ++ q8 ++ updGrpLit ++ gw1 ++ isaGrpLit ++ gw2 ++
        chMark ++ gc ++ rpMark ++ q9 ++ geMark ++ q10) →
      greedyPhaseTail
        (sp ++ fpMark ++ ol ++ rpMark ++ q8 ++ updGrpLit ++ gw1 ++ isaGrpLit ++ gw2 ++
         chMark ++ gc ++ rpMark ++ q9 ++ geMark ++ q10) =
      some (sp, ol,
        q8 ++ updGrpLit ++ gw1 ++ isaGrpLit ++ gw2 ++ chMark ++ gc ++ rpMark ++ q9 ++
        geMark ++ q10) →
      containsSub updSrcLit
        (q8 ++ updGrpLit ++ gw1 ++ isaGrpLit ++ gw2 ++ chMark ++ gc ++ rpMark ++ q9 ++
         geMark ++ q10) = false →
      splitFirst updGrpLit
        (q1 ++ dep13 ++ q2 ++ sbYes ++ q3 ++ prodOld ++ q4 ++ displayLit ++ dnm ++
         quoteSemi ++ q5 ++ joinOver (updBuildEntry refs builds) newFilesList ++ beMark ++
         q6 ++ joinOver (updFileRefEntry refs) newFilesList ++ feMark ++ q7 ++ updSrcLit ++
         sp ++ fpMark ++ ol ++ joinOver (updSourceRef builds) newFilesList ++ rpMark ++
         q8 ++ updGrpLit ++ gw1 ++ isaGrpLit ++ gw2 ++ chMark ++ gc ++ rpMark ++ q9 ++
         geMark ++ q10) =
      some (q1 ++ dep13 ++ q2 ++ sbYes ++ q3 ++ prodOld ++ q4 ++ displayLit ++ dnm ++
            quoteSemi ++ q5 ++ joinOver (updBuildEntry refs builds) newFilesList ++
            beMark ++ q6 ++ joinOver (updFileRefEntry refs) newFilesList ++ feMark ++ q7 ++
            updSrcLit ++ sp ++ fpMark ++ ol ++
            joinOver (updSourceRef builds) newFilesList ++ rpMark ++ q8,
        gw1 ++ isaGrpLit ++ gw2 ++ chMark ++ gc ++ rpMark ++ q9 ++ geMark ++ q10) →
      groupPatternTail
        (gw1 ++ isaGrpLit ++ gw2 ++ chMark ++ gc ++ rpMark ++ q9 ++ geMark ++ q10) =
      some (gw1, gw2, gc,
        q9 ++ geMark ++ q10) →
      containsSub updGrpLit
        (q9 ++ geMark ++ q10) = false →
      splitFirst geMark
        (q1 ++ dep13 ++ q2 ++ sbYes ++ q3 ++ prodOld ++ q4 ++ displayLit ++ dnm ++
         quoteSemi ++ q5 ++ joinOver (updBuildEntry refs builds) newFilesList ++ beMark ++
         q6 ++ joinOver (updFileRefEntry refs) newFilesList ++ feMark ++ q7 ++ updSrcLit ++
         sp ++ fpMark ++ ol ++ joinOver (updSourceRef builds) newFilesList ++ rpMark ++
         q8 ++ updGrpLit ++ gw1 ++ isaGrpLit ++ gw2 ++ chMark ++
         newTopChildren svcId viewsId ++ gc ++ rpMark ++ q9 ++ geMark ++ q10) =
      some (q1 ++ dep13 ++ q2 ++ sbYes ++ q3 ++ prodOld ++ q4 ++ displayLit ++ dnm ++
            quoteSemi ++ q5 ++ joinOver (updBuildEntry refs builds) newFilesList ++
            beMark ++ q6 ++ joinOver (updFileRefEntry refs) newFilesList ++ feMark ++ q7 ++
            updSrcLit ++ sp ++ fpMark ++ ol ++
            joinOver (updSourceRef builds) newFilesList ++ rpMark ++ q8 ++ updGrpLit ++
            gw1 ++ isaGrpLit ++ gw2 ++ chMark ++ newTopChildren svcId viewsId ++ gc ++
            rpMark ++ q9,
        q10) →
      containsSub geMark
        (q10) = false →
      splitFirst dep13
        (q1 ++ dep13 ++ q2 ++ sbYes ++ q3 ++ prodOld ++ q4 ++ displayLit ++ dnm ++
         quoteSemi ++ q5 ++ joinOver (updBuildEntry refs builds) newFilesList ++ beMark ++
         q6 ++ joinOver (updFileRefEntry refs) newFilesList ++ feMark ++ q7 ++ updSrcLit ++
         sp ++ fpMark ++ ol ++ joinOver (updSourceRef builds) newFilesList ++ rpMark ++
         q8 ++ updGrpLit ++ gw1 ++ isaGrpLit ++ gw2 ++ chMark ++
         newTopChildren svcId viewsId ++ gc ++ rpMark ++ q9 ++
         newGroupsText refs svcId viewsId ++ geMark ++ q10) =
      some (q1,
        q2 ++ sbYes ++ q3 ++ prodOld ++ q4 ++ displayLit ++ dnm ++ quoteSemi ++ q5 ++
        joinOver (updBuildEntry refs builds) newFilesList ++ beMark ++ q6 ++
        joinOver (updFileRefEntry refs) newFilesList ++ feMark ++ q7 ++ updSrcLit ++ sp ++
        fpMark ++ ol ++ joinOver (updSourceRef builds) newFilesList ++ rpMark ++ q8 ++
        updGrpLit ++ gw1 ++ isaGrpLit ++ gw2 ++ chMark ++ newTopChildren svcId viewsId ++
        gc ++ rpMark ++ q9 ++ newGroupsText refs svcId viewsId ++ geMark ++ q10) →
      containsSub dep13
        (q2 ++ sbYes ++ q3 ++ prodOld ++ q4 ++ displayLit ++ dnm ++ quoteSemi ++ q5 ++
         joinOver (updBuildEntry refs builds) newFilesList ++ beMark ++ q6 ++
         joinOver (updFileRefEntry refs) newFilesList ++ feMark ++ q7 ++ updSrcLit ++ sp ++
         fpMark ++ ol ++ joinOver (updSourceRef builds) newFilesList ++ rpMark ++ q8 ++
         updGrpLit ++ gw1 ++ isaGrpLit ++ gw2 ++ chMark ++ newTopChildren svcId viewsId ++
         gc ++ rpMark ++ q9 ++ newGroupsText refs svcId viewsId ++ geMark ++ q10) = false →
      splitFirst sbYes
        (q1 ++ dep14 ++ q2 ++ sbYes ++ q3 ++ prodOld ++ q4 ++ displayLit ++ dnm ++
         quoteSemi ++ q5 ++ joinOver (updBuildEntry refs builds) newFilesList ++ beMark ++
         q6 ++ joinOver (updFileRefEntry refs) newFilesList ++ feMark ++ q7 ++ updSrcLit ++
         sp ++ fpMark ++ ol ++ joinOver (updSourceRef builds) newFilesList ++ rpMark ++
         q8 ++ updGrpLit ++ gw1 ++ isaGrpLit ++ gw2 ++ chMark ++
         newTopChildren svcId viewsId ++ gc ++ rpMark ++ q9 ++
         newGroupsText refs svcId viewsId ++ geMark ++ q10) =
      some (q1 ++ dep14 ++ q2,
        q3 ++ prodOld ++ q4 ++ displayLit ++ dnm ++ quoteSemi ++ q5 ++
        joinOver (updBuildEntry refs builds) newFilesList ++ beMark ++ q6 ++
        joinOver (updFileRefEntry refs) newFilesList ++ feMark ++ q7 ++ updSrcLit ++ sp ++
        fpMark ++ ol ++ joinOver (updSourceRef builds) newFilesList ++ rpMark ++ q8 ++
        updGrpLit ++ gw1 ++ isaGrpLit ++ gw2 ++ chMark ++ newTopChildren svcId viewsId ++
        gc ++ rpMark ++ q9 ++ newGroupsText refs svcId viewsId ++ geMark ++ q10) →
      containsSub sbYes
        (q3 ++ prodOld ++ q4 ++ displayLit ++ dnm ++ quoteSemi ++ q5 ++
         joinOver (updBuildEntry refs builds) newFilesList ++ beMark ++ q6 ++
         joinOver (updFileRefEntry refs) newFilesList ++ feMark ++ q7 ++ updSrcLit ++ sp ++
         fpMark ++ ol ++ joinOver (updSourceRef builds) newFilesList ++ rpMark ++ q8 ++
         updGrpLit ++ gw1 ++ isaGrpLit ++ gw2 ++ chMark ++ newTopChildren svcId viewsId ++
         gc ++ rpMark ++ q9 ++ newGroupsText refs svcId viewsId ++ geMark ++ q10) = false →
      splitFirst prodOld
        (q1 ++ dep14 ++ q2 ++ sbNo ++ q3 ++ prodOld ++ q4 ++ displayLit ++ dnm ++
         quoteSemi ++ q5 ++ joinOver (updBuildEntry refs builds) newFilesList ++ beMark ++
         q6 ++ joinOver (updFileRefEntry refs) newFilesList ++ feMark ++ q7 ++ updSrcLit ++
         sp ++ fpMark ++ ol ++ joinOver (updSourceRef builds) newFilesList ++ rpMark ++
         q8 ++ updGrpLit ++ gw1 ++ isaGrpLit ++ gw2 ++ chMark ++
         newTopChildren svcId viewsId ++ gc ++ rpMark ++ q9 ++
         newGroupsText refs svcId viewsId ++ geMark ++ q10) =
      some (q1 ++ dep14 ++ q2 ++ sbNo ++ q3,
        q4 ++ displayLit ++ dnm ++ quoteSemi ++ q5 ++
        joinOver (updBuildEntry refs builds) newFilesList ++ beMark ++ q6 ++
        joinOver (updFileRefEntry refs) newFilesList ++ feMark ++ q7 ++ updSrcLit ++ sp ++
        fpMark ++ ol ++ joinOver (updSourceRef builds) newFilesList ++ rpMark ++ q8 ++
        updGrpLit ++ gw1 ++ isaGrpLit ++ gw2 ++ chMark ++ newTopChildren svcId viewsId ++
        gc ++ rpMark ++ q9 ++ newGroupsText refs svcId viewsId ++ geMark ++ q10) →
      containsSub prodOld
        (q4 ++ displayLit ++ dnm ++ quoteSemi ++ q5 ++
         joinOver (updBuildEntry refs builds) newFilesList ++ beMark ++ q6 ++
         joinOver (updFileRefEntry refs) newFilesList ++ feMark ++ q7 ++ updSrcLit ++ sp ++
         fpMark ++ ol ++ joinOver (updSourceRef builds) newFilesList ++ rpMark ++ q8 ++
         updGrpLit ++ gw1 ++ isaGrpLit ++ gw2 ++ chMark ++ newTopChildren svcId viewsId ++
         gc ++ rpMark ++ q9 ++ newGroupsText refs svcId viewsId ++ geMark ++ q10) = false →
      splitFirst displayLit
        (q1 ++ dep14 ++ q2 ++ sbNo ++ q3 ++ prodNew ++ q4 ++ displayLit ++ dnm ++
         quoteSemi ++ q5 ++ joinOver (updBuildEntry refs builds) newFilesList ++ beMark ++
         q6 ++ joinOver (updFileRefEntry refs) newFilesList ++ feMark ++ q7 ++ updSrcLit ++
         sp ++ fpMark ++ ol ++ joinOver (updSourceRef builds) newFilesList ++ rpMark ++
         q8 ++ updGrpLit ++ gw1 ++ isaGrpLit ++ gw2 ++ chMark ++
         newTopChildren svcId viewsId ++ gc ++ rpMark ++ q9 ++
         newGroupsText refs svcId viewsId ++ geMark ++ q10) =
      some (q1 ++ dep14 ++ q2 ++ sbNo ++ q3 ++ prodNew ++ q4,
        dnm ++ quoteSemi ++ q5 ++ joinOver (updBuildEntry refs builds) newFilesList ++
        beMark ++ q6 ++ joinOver (updFileRefEntry refs) newFilesList ++ feMark ++ q7 ++
        updSrcLit ++ sp ++ fpMark ++ ol ++ joinOver (updSourceRef builds) newFilesList ++
        rpMark ++ q8 ++ updGrpLit ++ gw1 ++ isaGrpLit ++ gw2 ++ chMark ++
        newTopChildren svcId viewsId ++ gc ++ rpMark ++ q9 ++
        newGroupsText refs svcId viewsId ++ geMark ++ q10) →
      (dnm ++ quoteSemi ++ q5 ++ joinOver (updBuildEntry refs builds) newFilesList ++
         beMark ++ q6 ++ joinOver (updFileRefEntry refs) newFilesList ++ feMark ++ q7 ++
         updSrcLit ++ sp ++ fpMark ++ ol ++ joinOver (updSourceRef builds) newFilesList ++
         rpMark ++ q8 ++ updGrpLit ++ gw1 ++ isaGrpLit ++ gw2 ++ chMark ++
         newTopChildren svcId viewsId ++ gc ++ rpMark ++ q9 ++
         newGroupsText refs svcId viewsId ++ geMark ++ q10).takeWhile (fun c => c ≠ '"') = dnm →
      dnm ≠ ([] : List Char) →
      quoteSemi.isPrefixOf
        ((dnm ++ quoteSemi ++ q5 ++ joinOver (updBuildEntry refs builds) newFilesList ++
          beMark ++ q6 ++ joinOver (updFileRefEntry refs) newFilesList ++ feMark ++ q7 ++
          updSrcLit ++ sp ++ fpMark ++ ol ++ joinOver (updSourceRef builds) newFilesList ++
          rpMark ++ q8 ++ updGrpLit ++ gw1 ++ isaGrpLit ++ gw2 ++ chMark ++
          newTopChildren svcId viewsId ++ gc ++ rpMark ++ q9 ++
          newGroupsText refs svcId viewsId ++ geMark ++ q10).drop dnm.length) = true →
      (dnm ++ quoteSemi ++ q5 ++ joinOver (updBuildEntry refs builds) newFilesList ++
         beMark ++ q6 ++ joinOver (updFileRefEntry refs) newFilesList ++ feMark ++ q7 ++
         updSrcLit ++ sp ++ fpMark ++ ol ++ joinOver (updSourceRef builds) newFilesList ++
         rpMark ++ q8 ++ updGrpLit ++ gw1 ++ isaGrpLit ++ gw2 ++ chMark ++
         newTopChildren svcId viewsId ++ gc ++ rpMark ++ q9 ++
         newGroupsText refs svcId viewsId ++ geMark ++ q10).drop
        (dnm.length + 2) =
      q5 ++ joinOver (updBuildEntry refs builds) newFilesList ++ beMark ++ q6 ++
      joinOver (updFileRefEntry refs) newFilesList ++ feMark ++ q7 ++ updSrcLit ++ sp ++
      fpMark ++ ol ++ joinOver (updSourceRef builds) newFilesList ++ rpMark ++ q8 ++
      updGrpLit ++ gw1 ++ isaGrpLit ++ gw2 ++ chMark ++ newTopChildren svcId viewsId ++
      gc ++ rpMark ++ q9 ++ newGroupsText refs svcId viewsId ++ geMark ++ q10 →
      containsSub displayLit
        ((dnm ++ quoteSemi ++ q5 ++ joinOver (updBuildEntry refs builds) newFilesList ++
          beMark ++ q6 ++ joinOver (updFileRefEntry refs) newFilesList ++ feMark ++ q7 ++
          updSrcLit ++ sp ++ fpMark ++ ol ++ joinOver (updSourceRef builds) newFilesList ++
          rpMark ++ q8 ++ updGrpLit ++ gw1 ++ isaGrpLit ++ gw2 ++ chMark ++
          newTopChildren svcId viewsId ++ gc ++ rpMark ++ q9 ++
          newGroupsText refs svcId viewsId ++ geMark ++ q10).drop (dnm.length + 2)) = false →
      updateXcodeProject refs builds svcId viewsId
        (q1 ++ dep13 ++ q2 ++ sbYes ++ q3 ++ prodOld ++ q4 ++ displayLit ++ dnm ++
         quoteSemi ++ q5 ++ beMark ++ q6 ++ feMark ++ q7 ++ updSrcLit ++ sp ++ fpMark ++
         ol ++ rpMark ++ q8 ++ updGrpLit ++ gw1 ++ isaGrpLit ++ gw2 ++ chMark ++ gc ++
         rpMark ++ q9 ++ geMark ++ q10) =
      q1 ++ dep14 ++ q2 ++ sbNo ++ q3 ++ prodNew ++ q4 ++ displayNew ++ q5 ++
      joinOver (updBuildEntry refs builds) newFilesList ++ beMark ++ q6 ++
      joinOver (updFileRefEntry refs) newFilesList ++ feMark ++ q7 ++ updSrcLit ++ sp ++
      fpMark ++ ol ++ joinOver (updSourceRef builds) newFilesList ++ rpMark ++ q8 ++
      updGrpLit ++ gw1 ++ isaGrpLit ++ gw2 ++ chMark ++ newTopChildren svcId viewsId ++
      gc ++ rpMark ++ q9 ++ newGroupsText refs svcId viewsId ++ geMark ++ q10) ∧
    (∀ (refs builds : String → String) (svcId viewsId : String) (content : List Char),
      containsSub feMark content = false → containsSub beMark content = false →
      containsSub updSrcLit content = false → containsSub updGrpLit content = false →
      containsSub geMark content = false → containsSub dep13 content = false →
      containsSub sbYes content = false → containsSub prodOld content = false →
      containsSub displayLit content = false →
      updateXcodeProject refs builds svcId viewsId content = content) := by
  refine ⟨?_, ?_, ?_⟩
  · intro p1 m1 w1 m2 w2 s1 m3 w3 files refs builds hf1 hf2 hf3 hs1 hn1 hs2 hn2 hs3 hn3 hcore
    have hp1 : bbMark ++ m1 ++ beMark ≠ [] :=
      ne_nil_left (ne_nil_left (by decide))
    have hp2 : frMark ++ m2 ++ feMark ≠ [] :=
      ne_nil_left (ne_nil_left (by decide))
    have hp3 : slMark ++ s1 ++ fpMark ++ m3 ++ rpMark ≠ [] :=
      ne_nil_left (ne_nil_left (ne_nil_left (ne_nil_left (by decide))))
    have e1 := replaceAll_splice (r := bbMark ++ joinEntries (buildEntry refs builds) files ++
      m1 ++ beMark) hp1 hs1 hn1
    have e2 := replaceAll_splice (r := frMark ++ joinEntries (fileRefEntry refs) files ++
      m2 ++ feMark) hp2 hs2 hn2
    have e3 := replaceAll_splice (r := slMark ++ s1 ++ fpMark ++
      joinEntries (sourceRefEntry builds) files ++ m3 ++ rpMark) hp3 hs3 hn3
    simp only [addFilesRun, hf1, hf2, hf3, applyPatches]
    simp only [List.append_assoc] at e1 e2 e3 ⊢
    rw [e1, e2, e3]
    simp only [List.append_assoc] at hcore ⊢
    rw [hcore]
  · intro q1 q2 q3 q4 q5 q6 q7 q8 q9 q10 sp ol gw1 gw2 gc dnm refs builds svcId viewsId
    intro hu1 hv1 hu2 hv2 hu3 hg3 hv3 hu4 hg4 hv4 hu5 hv5 hu6 hv6 hu7 hv7 hu8 hv8
    intro hu9 ht9 hne9 hq9 hd9 hv9
    have e1 := replaceAll_splice
      (r := joinOver (updFileRefEntry refs) newFilesList ++ feMark) (by decide) hu1 hv1
    have e2 := replaceAll_splice
      (r := joinOver (updBuildEntry refs builds) newFilesList ++ beMark) (by decide) hu2 hv2
    have e3 := subSourcesUpd_splice (joinOver (updSourceRef builds) newFilesList) hu3 hg3 hv3
    have e4 := subGroupUpd_splice (newTopChildren svcId viewsId) hu4 hg4 hv4
    have e5 := replaceAll_splice
      (r := newGroupsText refs svcId viewsId ++ geMark) (by decide) hu5 hv5
    have e6 := replaceAll_splice (r := dep14) (by decide) hu6 hv6
    have e7 := replaceAll_splice (r := sbNo) (by decide) hu7 hv7
    have e8 := replaceAll_splice (r := prodNew) (by decide) hu8 hv8
    have e9 := subDisplayName_splice hu9 ht9 hne9 hq9 hv9
    rw [hd9] at e9
    simp only [updateXcodeProject]
    simp only [List.append_assoc] at e1 e2 e3 e4 e5 e6 e7 e8 e9 ⊢
    rw [e1, e2, e3, e4, e5, e6, e7, e8, e9]
  · intro refs builds svcId viewsId content h1 h2 h3 h4 h5 h6 h7 h8 h9
    simp only [updateXcodeProject]
    rw [replaceAll_id_of_not_containsSub h1, replaceAll_id_of_not_containsSub h2,
      subSourcesUpd_id h3, subGroupUpd_id h4, replaceAll_id_of_not_containsSub h5,
      replaceAll_id_of_not_containsSub h6, replaceAll_id_of_not_containsSub h7,
      replaceAll_id_of_not_containsSub h8, subDisplayName_id h9]

set_option maxRecDepth 1000000 in
set_option maxHeartbeats 40000000 in
/-- Witness for C1: the three parts applied at concrete inputs — a
well-formed manifest for `add_files_to_xcode.py`, a manifest containing
every patched pattern once for `update_xcode_project.py`, and a
pattern-free manifest — with every hypothesis discharged by `decide`. -/
theorem C1_patch_frame_witness :
    (addFilesRun
      ("pre\n".data ++ (bbMark ++ "OLDB\n".data ++ beMark) ++ "\n".data ++
        (frMark ++ "FRX\n".data ++ feMark) ++ "\n".data ++
        (slMark ++ ([] : List Char) ++ fpMark ++ "CC2,".data ++ rpMark) ++ "w\n".data)
      ["Fresh.swift"] (fun _ => "RA") (fun _ => "BA") =
    (true,
      "pre\n".data ++
        (bbMark ++ joinEntries (buildEntry (fun _ => "RA") (fun _ => "BA")) ["Fresh.swift"] ++
          "OLDB\n".data ++ beMark) ++ "\n".data ++
        (frMark ++ joinEntries (fileRefEntry (fun _ => "RA")) ["Fresh.swift"] ++
          "FRX\n".data ++ feMark) ++ "\n".data ++
        (slMark ++ ([] : List Char) ++ fpMark ++
          joinEntries (sourceRefEntry (fun _ => "BA")) ["Fresh.swift"] ++ "CC2,".data ++
          rpMark) ++ "w\n".data)) ∧
    (updateXcodeProject (fun _ => "UR") (fun _ => "UB") "S1X" "V1X"
      ("A1\n".data ++ dep13 ++ "B2\n".data ++ sbYes ++ "C3\n".data ++ prodOld ++
       "D4\n".data ++ displayLit ++ "Old Name".data ++ quoteSemi ++ "E5\n".data ++
       beMark ++ "F6\n".data ++ feMark ++ "G7\n".data ++ updSrcLit ++ "x ".data ++
       fpMark ++ "OLD,".data ++ rpMark ++ "H8\n".data ++ updGrpLit ++ "\n\t".data ++
       isaGrpLit ++ "\n\t".data ++ chMark ++ "CH,".data ++ rpMark ++ "I9\n".data ++
       geMark ++ "J0\n".data) =
    "A1\n".data ++ dep14 ++ "B2\n".data ++ sbNo ++ "C3\n".data ++ prodNew ++ "D4\n".data ++
    displayNew ++ "E5\n".data ++
    joinOver (updBuildEntry (fun _ => "UR") (fun _ => "UB")) newFilesList ++ beMark ++
    "F6\n".data ++ joinOver (updFileRefEntry (fun _ => "UR")) newFilesList ++ feMark ++
    "G7\n".data ++ updSrcLit ++ "x ".data ++ fpMark ++ "OLD,".data ++
    joinOver (updSourceRef (fun _ => "UB")) newFilesList ++ rpMark ++ "H8\n".data ++
    updGrpLit ++ "\n\t".data ++ isaGrpLit ++ "\n\t".data ++ chMark ++
    newTopChildren "S1X" "V1X" ++ "CH,".data ++ rpMark ++ "I9\n".data ++
    newGroupsText (fun _ => "UR") "S1X" "V1X" ++ geMark ++ "J0\n".data) ∧
    (updateXcodeProject (fun _ => "UP") (fun _ => "UP") "SP" "VP"
      "no patterns here".data = "no patterns here".data) :=
  ⟨C1_patch_frame.1 "pre\n".data "OLDB\n".data "\n".data "FRX\n".data "\n".data
      ([] : List Char) "CC2,".data "w\n".data ["Fresh.swift"]
      (fun _ => "RA") (fun _ => "BA")
      (by decide) (by decide) (by decide) (by decide) (by decide) (by decide)
      (by decide) (by decide) (by decide) (by decide),
    C1_patch_frame.2.1 "A1\n".data "B2\n".data "C3\n".data "D4\n".data "E5\n".data
      "F6\n".data "G7\n".data "H8\n".data "I9\n".data "J0\n".data "x ".data
      "OLD,".data "\n\t".data "\n\t".data "CH,".data "Old Name".data
      (fun _ => "UR") (fun _ => "UB") "S1X" "V1X"
      (by decide)
      (by decide)
      (by
        simp only [joinOver, newFilesList, newGroupsText, List.foldr, List.append_assoc,
          List.append_nil]
        repeat refine splitFirst_chain (by decide) ?_
        first
        | exact splitFirst_head (by decide) _
        | exact splitFirst_here (by decide) (by decide))
      (by
        simp only [joinOver, newFilesList, newGroupsText, List.foldr, List.append_assoc,
          List.append_nil]
        repeat refine containsSub_append_chain (by decide) ?_
        decide)
      (by
        simp only [joinOver, newFilesList, newGroupsText, List.foldr, List.append_assoc,
          List.append_nil]
        repeat refine splitFirst_chain (by decide) ?_
        first
        | exact splitFirst_head (by decide) _
        | exact splitFirst_here (by decide) (by decide))
      (by decide)
      (by decide)
      (by
        simp only [joinOver, newFilesList, newGroupsText, List.foldr, List.append_assoc,
          List.append_nil]
        repeat refine splitFirst_chain (by decide) ?_
        first
        | exact splitFirst_head (by decide) _
        | exact splitFirst_here (by decide) (by decide))
      (by decide)
      (by decide)
      (by
        simp only [joinOver, newFilesList, newGroupsText, List.foldr, List.append_assoc,
          List.append_nil]
        repeat refine splitFirst_chain (by decide) ?_
        first
        | exact splitFirst_head (by decide) _
        | exact splitFirst_here (by decide) (by decide))
      (by decide)
      (by
        simp only [joinOver, newFilesList, newGroupsText, List.foldr, List.append_assoc,
          List.append_nil]
        repeat refine splitFirst_chain (by decide) ?_
        first
        | exact splitFirst_head (by decide) _
        | exact splitFirst_here (by decide) (by decide))
      (by
        simp only [joinOver, newFilesList, newGroupsText, List.foldr, List.append_assoc,
          List.append_nil]
        repeat refine containsSub_append_chain (by decide) ?_
        decide)
      (by
        simp only [joinOver, newFilesList, newGroupsText, List.foldr, List.append_assoc,
          List.append_nil]
        repeat refine splitFirst_chain (by decide) ?_
        first
        | exact splitFirst_head (by decide) _
        | exact splitFirst_here (by decide) (by decide))
      (by
        simp only [joinOver, newFilesList, newGroupsText, List.foldr, List.append_assoc,
          List.append_nil]
        repeat refine containsSub_append_chain (by decide) ?_
        decide)
      (by
        simp only [joinOver, newFilesList, newGroupsText, List.foldr, List.append_assoc,
          List.append_nil]
        repeat refine splitFirst_chain (by decide) ?_
        first
        | exact splitFirst_head (by decide) _
        | exact splitFirst_here (by decide) (by decide))
      (by
        simp only [joinOver, newFilesList, newGroupsText, List.foldr, List.append_assoc,
          List.append_nil]
        repeat refine containsSub_append_chain (by decide) ?_
        decide)
      (by
        simp only [joinOver, newFilesList, newGroupsText, List.foldr, List.append_assoc,
          List.append_nil]
        repeat refine splitFirst_chain (by decide) ?_
        first
        | exact splitFirst_head (by decide) _
        | exact splitFirst_here (by decide) (by decide))
      (by decide)
      (by decide)
      (by decide)
      (by
        simp only [List.append_assoc]
        rw [drop_len_plus2 (by decide)])
      (by
        simp only [List.append_assoc]
        rw [drop_len_plus2 (by decide)]
        simp only [joinOver, newFilesList, newGroupsText, List.foldr, List.append_assoc,
          List.append_nil]
        repeat refine containsSub_append_chain (by decide) ?_
        decide),
    C1_patch_frame.2.2 (fun _ => "UP") (fun _ => "UP") "SP" "VP"
      "no patterns here".data
      (by decide) (by decide) (by decide) (by decide) (by decide) (by decide)
      (by decide) (by decide) (by decide)⟩

/-- Claim C2: if any of the `PBXBuildFile` section, the
`PBXFileReference` section or the `Sources` build phase cannot be found,
`add_files_to_project` returns `False` without writing the project file
(first equivalence: exit status 1 and the on-disk text unchanged), and
when all three are found it returns `True` and the script exits with
status 0 (second equivalence). -/
theorem C2_missing_section_error_handling :
    ∀ (content : List Char) (files : List String) (refs builds : String → String),
      ((findSection bbMark beMark content = none ∨
        findSection frMark feMark content = none ∨
        findSources content = none) ↔
        (addFilesExitCode content files refs builds = 1 ∧
          (addFilesRun content files refs builds).1 = false ∧
          (addFilesRun content files refs builds).2 = content)) ∧
      ((findSection bbMark beMark content ≠ none ∧
        findSection frMark feMark content ≠ none ∧
        findSources content ≠ none) ↔
        (addFilesExitCode content files refs builds = 0 ∧
          (addFilesRun content files refs builds).1 = true)) := by
  intro content files refs builds
  rcases h1 : findSection bbMark beMark content with _ | ⟨pa, m1, qa⟩ <;>
    rcases h2 : findSection frMark feMark content with _ | ⟨pb, m2, qb⟩ <;>
      rcases h3 : findSources content with _ | ⟨pc, s1, m3, qc⟩ <;>
        simp [addFilesRun, addFilesExitCode, h1, h2, h3]

set_option maxRecDepth 1000000 in
/-- Claim C3 (corrected), counterexample: on `dupSectionManifest`,
where the matched `PBXBuildFile` section text occurs twice,
`str.replace` splices the new entries into *both* occurrences, so the
updated manifest contains the new `PBXBuildFile` entry exactly twice —
not "exactly one new entry" as the claim states. -/
theorem C3_counterexample_duplicate_section :
    (addFilesRun dupSectionManifest ["New.swift"] cRefs cBuilds).1 = true ∧
    countSub (buildEntry cRefs cBuilds "New.swift")
      (addFilesRun dupSectionManifest ["New.swift"] cRefs cBuilds).2 = 2 := by
  decide

/-- Claim C3 (amended): when the three sections are found and, in
addition, each matched section text occurs exactly once in the (evolving)
manifest — which holds for every well-formed `pbxproj` and is expressed
below by the `splitFirst`/`containsSub` hypotheses — and no `Core` group
matches, then the update replaces the manifest by exactly the original
text with, for each file, one new `PBXBuildFile` entry, one new
`PBXFileReference` entry and one new `Sources` file-list entry, each
spliced immediately after the corresponding section begin marker, with
every pre-existing entry (`m1`, `m2`, `m3`) preserved. -/
theorem C3_insertion_shape
    (p1 m1 w1 m2 w2 s1 m3 w3 : List Char) (files : List String)
    (refs builds : String → String)
    (hf1 : findSection bbMark beMark
      (p1 ++ (bbMark ++ m1 ++ beMark) ++ w1 ++ (frMark ++ m2 ++ feMark) ++ w2 ++
        (slMark ++ s1 ++ fpMark ++ m3 ++ rpMark) ++ w3) =
      some (p1, m1, w1 ++ (frMark ++ m2 ++ feMark) ++ w2 ++
        (slMark ++ s1 ++ fpMark ++ m3 ++ rpMark) ++ w3))
    (hf2 : findSection frMark feMark
      (p1 ++ (bbMark ++ m1 ++ beMark) ++ w1 ++ (frMark ++ m2 ++ feMark) ++ w2 ++
        (slMark ++ s1 ++ fpMark ++ m3 ++ rpMark) ++ w3) =
      some (p1 ++ (bbMark ++ m1 ++ beMark) ++ w1, m2, w2 ++
        (slMark ++ s1 ++ fpMark ++ m3 ++ rpMark) ++ w3))
    (hf3 : findSources
      (p1 ++ (bbMark ++ m1 ++ beMark) ++ w1 ++ (frMark ++ m2 ++ feMark) ++ w2 ++
        (slMark ++ s1 ++ fpMark ++ m3 ++ rpMark) ++ w3) =
      some (p1 ++ (bbMark ++ m1 ++ beMark) ++ w1 ++ (frMark ++ m2 ++ feMark) ++ w2,
        s1, m3, w3))
    (hs1 : splitFirst (bbMark ++ m1 ++ beMark)
      (p1 ++ (bbMark ++ m1 ++ beMark) ++ w1 ++ (frMark ++ m2 ++ feMark) ++ w2 ++
        (slMark ++ s1 ++ fpMark ++ m3 ++ rpMark) ++ w3) =
      some (p1, w1 ++ (frMark ++ m2 ++ feMark) ++ w2 ++
        (slMark ++ s1 ++ fpMark ++ m3 ++ rpMark) ++ w3))
    (hn1 : containsSub (bbMark ++ m1 ++ beMark)
      (w1 ++ (frMark ++ m2 ++ feMark) ++ w2 ++
        (slMark ++ s1 ++ fpMark ++ m3 ++ rpMark) ++ w3) = false)
    (hs2 : splitFirst (frMark ++ m2 ++ feMark)
      (p1 ++ (bbMark ++ joinEntries (buildEntry refs builds) files ++ m1 ++ beMark) ++ w1 ++
        (frMark ++ m2 ++ feMark) ++ w2 ++ (slMark ++ s1 ++ fpMark ++ m3 ++ rpMark) ++ w3) =
      some (p1 ++ (bbMark ++ joinEntries (buildEntry refs builds) files ++ m1 ++ beMark) ++ w1,
        w2 ++ (slMark ++ s1 ++ fpMark ++ m3 ++ rpMark) ++ w3))
    (hn2 : containsSub (frMark ++ m2 ++ feMark)
      (w2 ++ (slMark ++ s1 ++ fpMark ++ m3 ++ rpMark) ++ w3) = false)
    (hs3 : splitFirst (slMark ++ s1 ++ fpMark ++ m3 ++ rpMark)
      (p1 ++ (bbMark ++ joinEntries (buildEntry refs builds) files ++ m1 ++ beMark) ++ w1 ++
        (frMark ++ joinEntries (fileRefEntry refs) files ++ m2 ++ feMark) ++ w2 ++
        (slMark ++ s1 ++ fpMark ++ m3 ++ rpMark) ++ w3) =
      some (p1 ++ (bbMark ++ joinEntries (buildEntry refs builds) files ++ m1 ++ beMark) ++ w1 ++
        (frMark ++ joinEntries (fileRefEntry refs) files ++ m2 ++ feMark) ++ w2, w3))
    (hn3 : containsSub (slMark ++ s1 ++ fpMark ++ m3 ++ rpMark) w3 = false)
    (hcore : findCore
      (p1 ++ (bbMark ++ joinEntries (buildEntry refs builds) files ++ m1 ++ beMark) ++ w1 ++
        (frMark ++ joinEntries (fileRefEntry refs) files ++ m2 ++ feMark) ++ w2 ++
        (slMark ++ s1 ++ fpMark ++ joinEntries (sourceRefEntry builds) files ++ m3 ++ rpMark) ++
        w3) = none) :
    addFilesRun
      (p1 ++ (bbMark ++ m1 ++ beMark) ++ w1 ++ (frMark ++ m2 ++ feMark) ++ w2 ++
        (slMark ++ s1 ++ fpMark ++ m3 ++ rpMark) ++ w3) files refs builds =
    (true,
      p1 ++ (bbMark ++ joinEntries (buildEntry refs builds) files ++ m1 ++ beMark) ++ w1 ++
        (frMark ++ joinEntries (fileRefEntry refs) files ++ m2 ++ feMark) ++ w2 ++
        (slMark ++ s1 ++ fpMark ++ joinEntries (sourceRefEntry builds) files ++ m3 ++ rpMark) ++
        w3) := by
  have hp1 : bbMark ++ m1 ++ beMark ≠ [] :=
    ne_nil_left (ne_nil_left (by decide))
  have hp2 : frMark ++ m2 ++ feMark ≠ [] :=
    ne_nil_left (ne_nil_left (by decide))
  have hp3 : slMark ++ s1 ++ fpMark ++ m3 ++ rpMark ≠ [] :=
    ne_nil_left (ne_nil_left (ne_nil_left (ne_nil_left (by decide))))
  have e1 := replaceAll_splice (r := bbMark ++ joinEntries (buildEntry refs builds) files ++
    m1 ++ beMark) hp1 hs1 hn1
  have e2 := replaceAll_splice (r := frMark ++ joinEntries (fileRefEntry refs) files ++
    m2 ++ feMark) hp2 hs2 hn2
  have e3 := replaceAll_splice (r := slMark ++ s1 ++ fpMark ++
    joinEntries (sourceRefEntry builds) files ++ m3 ++ rpMark) hp3 hs3 hn3
  simp only [addFilesRun, hf1, hf2, hf3, applyPatches]
  simp only [List.append_assoc] at e1 e2 e3 ⊢
  rw [e1, e2, e3]
  simp only [List.append_assoc] at hcore ⊢
  rw [hcore]

set_option maxRecDepth 1000000 in
/-- Witness for C3: a concrete well-formed manifest, one file to add;
all side conditions hold and the output has the spliced shape. -/
theorem C3_insertion_shape_witness :
    addFilesRun
      (([] : List Char) ++ (bbMark ++ "OLD\n".data ++ beMark) ++ "\n".data ++
        (frMark ++ "FR\n".data ++ feMark) ++ "\n".data ++
        (slMark ++ ([] : List Char) ++ fpMark ++ "CC,".data ++ rpMark) ++ "\n".data)
      ["New.swift"] cRefs cBuilds =
    (true,
      ([] : List Char) ++
        (bbMark ++ joinEntries (buildEntry cRefs cBuilds) ["New.swift"] ++ "OLD\n".data ++
          beMark) ++ "\n".data ++
        (frMark ++ joinEntries (fileRefEntry cRefs) ["New.swift"] ++ "FR\n".data ++ feMark) ++
        "\n".data ++
        (slMark ++ ([] : List Char) ++ fpMark ++
          joinEntries (sourceRefEntry cBuilds) ["New.swift"] ++ "CC,".data ++ rpMark) ++
        "\n".data) :=
  C3_insertion_shape ([] : List Char) "OLD\n".data "\n".data "FR\n".data "\n".data
    ([] : List Char) "CC,".data "\n".data ["New.swift"] cRefs cBuilds
    (by decide) (by decide) (by decide) (by decide) (by decide) (by decide)
    (by decide) (by decide) (by decide) (by decide)

theorem lexLt_asymm : ∀ {a b : List Char}, lexLt a b = true → lexLt b a = false
  | [], [], h => by simp [lexLt] at h
  | [], _ :: _, _ => by simp [lexLt]
  | _ :: _, [], h => by simp [lexLt] at h
  | a :: as, b :: bs, h => by
    by_cases h1 : a.toNat < b.toNat
    · have h2 : ¬ b.toNat < a.toNat := Nat.lt_asymm h1
      simp [lexLt, h1, h2]
    · by_cases h2 : b.toNat < a.toNat
      · simp [lexLt, h1, h2] at h
      · simp only [lexLt, if_neg h1, if_neg h2] at h
        simp only [lexLt, if_neg h2, if_neg h1]
        exact lexLt_asymm h

theorem lexLt_false_trans :
    ∀ {a b c : List Char}, lexLt a b = false → lexLt b c = false → lexLt a c = false
  | [], [], _, _, h2 => h2
  | [], _ :: _, _, h1, _ => by simp [lexLt] at h1
  | _ :: _, _, [], _, _ => rfl
  | _ :: _, [], _ :: _, _, h2 => by simp [lexLt] at h2
  | x :: xs, y :: ys, z :: zs, h1, h2 => by
    by_cases hxy : x.toNat < y.toNat
    · simp [lexLt, hxy] at h1
    · by_cases hyz : y.toNat < z.toNat
      · simp [lexLt, hyz] at h2
      · by_cases hxz : x.toNat < z.toNat
        · exact absurd hxz (by omega)
        · by_cases hzx : z.toNat < x.toNat
          · simp [lexLt, hxz, hzx]
          · simp only [lexLt, if_neg hxy, if_neg (show ¬ y.toNat < x.toNat by omega)] at h1
            simp only [lexLt, if_neg hyz, if_neg (show ¬ z.toNat < y.toNat by omega)] at h2
            simp only [lexLt, if_neg hxz, if_neg hzx]
            exact lexLt_false_trans h1 h2

theorem mem_insertDesc {z x : String} : ∀ {l : List String},
    z ∈ insertDesc x l ↔ z = x ∨ z ∈ l
  | [] => by simp [insertDesc]
  | y :: ys => by
    by_cases h : lexLt y.data x.data = true
    · simp [insertDesc, h]
    · have h' : lexLt y.data x.data = false := Bool.eq_false_iff.mpr h
      simp only [insertDesc, h', Bool.false_eq_true, if_false, List.mem_cons]
      rw [mem_insertDesc (l := ys)]
      tauto

theorem insertDesc_perm (x : String) :
    ∀ (l : List String), List.Perm (insertDesc x l) (x :: l)
  | [] => List.Perm.refl _
  | y :: ys => by
    by_cases h : lexLt y.data x.data = true
    · simp [insertDesc, h]
    · have h' : lexLt y.data x.data = false := Bool.eq_false_iff.mpr h
      simp only [insertDesc, h', Bool.false_eq_true, if_false]
      exact ((insertDesc_perm x ys).cons y).trans (List.Perm.swap x y ys)

theorem sortDesc_perm : ∀ (l : List String), List.Perm (sortDesc l) l
  | [] => List.Perm.refl _
  | a :: l => by
    have h : sortDesc (a :: l) = insertDesc a (sortDesc l) := rfl
    rw [h]
    exact (insertDesc_perm a _).trans ((sortDesc_perm l).cons a)

theorem insertDesc_pairwise {x : String} : ∀ {l : List String},
    l.Pairwise descRel → (insertDesc x l).Pairwise descRel
  | [], _ => by simp [insertDesc, List.pairwise_cons, descRel]
  | y :: ys, h => by
    rcases List.pairwise_cons.mp h with ⟨hy, hys⟩
    by_cases hc : lexLt y.data x.data = true
    · simp only [insertDesc, hc, if_true]
      refine List.pairwise_cons.mpr ⟨?_, h⟩
      intro z hz
      rcases List.mem_cons.mp hz with rfl | hz
      · exact lexLt_asymm hc
      · exact lexLt_false_trans (lexLt_asymm hc) (hy z hz)
    · have hc' : lexLt y.data x.data = false := Bool.eq_false_iff.mpr hc
      simp only [insertDesc, hc', Bool.false_eq_true, if_false]
      refine List.pairwise_cons.mpr ⟨?_, insertDesc_pairwise hys⟩
      intro z hz
      rcases mem_insertDesc.mp hz with rfl | hz
      · exact hc'
      · exact hy z hz

theorem sortDesc_pairwise : ∀ (l : List String), (sortDesc l).Pairwise descRel
  | [] => List.Pairwise.nil
  | _ :: l => insertDesc_pairwise (sortDesc_pairwise l)

/-- Claim C10: after `cleanup_old_backups` runs, at most five backups
remain; the removed files are exactly those after the first five of the
name-sorted (descending, i.e. newest-timestamp-first) list; each removed
file is not above any kept one in that order; and with five or fewer
backups nothing is removed. -/
theorem C10_cleanup_old_backups (backups : List String) (hnd : backups.Nodup) :
    List.Perm (cleanupRemaining backups) ((sortDesc backups).take 5) ∧
    (cleanupRemaining backups).length ≤ 5 ∧
    (backups.length ≤ 5 → cleanupRemoved backups = []) ∧
    (5 < backups.length → cleanupRemoved backups = (sortDesc backups).drop 5) ∧
    (∀ x ∈ (sortDesc backups).take 5, ∀ y ∈ cleanupRemoved backups,
      lexLt x.data y.data = false) := by
  have hperm : List.Perm (sortDesc backups) backups := sortDesc_perm backups
  have hnds : (sortDesc backups).Nodup := (hperm.nodup_iff).mpr hnd
  have hsplit : (sortDesc backups).take 5 ++ (sortDesc backups).drop 5 = sortDesc backups :=
    List.take_append_drop 5 _
  have hlen : (sortDesc backups).length = backups.length := hperm.length_eq
  by_cases hgt : 5 < backups.length
  · have hrem : cleanupRemoved backups = (sortDesc backups).drop 5 := by
      simp [cleanupRemoved, hgt]
    have hdisj : ∀ x ∈ (sortDesc backups).take 5, x ∉ (sortDesc backups).drop 5 := by
      intro x hx hy
      have : ¬ (sortDesc backups).Nodup := by
        rw [← hsplit]
        intro hn
        rcases List.nodup_append.mp hn with ⟨_, _, hdis⟩
        exact hdis hx hy
      exact this hnds
    have hfilter : List.Perm (cleanupRemaining backups)
        ((sortDesc backups).take 5) := by
      unfold cleanupRemaining
      rw [hrem]
      have h1 : List.Perm (backups.filter (fun f => decide (¬ f ∈ (sortDesc backups).drop 5)))
          ((sortDesc backups).filter (fun f => decide (¬ f ∈ (sortDesc backups).drop 5))) :=
        (hperm.filter _).symm
      have h2 : ((sortDesc backups).take 5).filter
          (fun f => decide (¬ f ∈ (sortDesc backups).drop 5)) = (sortDesc backups).take 5 := by
        rw [List.filter_eq_self]
        intro a ha
        simpa using hdisj a ha
      have h3 : ((sortDesc backups).drop 5).filter
          (fun f => decide (¬ f ∈ (sortDesc backups).drop 5)) = [] := by
        rw [List.filter_eq_nil_iff]
        intro a ha
        simpa using ha
      have hfac := congrArg
        (List.filter (fun f => decide (¬ f ∈ (sortDesc backups).drop 5))) hsplit
      rw [List.filter_append, h2, h3, List.append_nil] at hfac
      exact h1.trans (hfac ▸ List.Perm.refl _)
    refine ⟨hfilter, ?_, ?_, fun _ => hrem, ?_⟩
    · rw [hfilter.length_eq]
      exact (List.length_take_le _ _)
    · intro hle
      omega
    · intro x hx y hy
      rw [hrem] at hy
      have hpw := sortDesc_pairwise backups
      rw [← hsplit] at hpw
      rcases List.pairwise_append.mp hpw with ⟨_, _, hcr⟩
      exact hcr x hx y hy
  · have hrem : cleanupRemoved backups = [] := by
      simp [cleanupRemoved, hgt]
    have htake : (sortDesc backups).take 5 = sortDesc backups := by
      apply List.take_of_length_le
      omega
    have hid : backups.filter (fun f => decide (¬ f ∈ ([] : List String))) = backups := by
      rw [List.filter_eq_self]
      intro a _
      simp
    refine ⟨?_, ?_, fun _ => hrem, fun h => absurd h hgt, ?_⟩
    · unfold cleanupRemaining
      rw [hrem, htake, hid]
      exact hperm.symm
    · unfold cleanupRemaining
      rw [hrem, hid]
      omega
    · intro x _ y hy
      rw [hrem] at hy
      cases hy

/-- Witness for C10: seven concrete backup names. -/
theorem C10_cleanup_old_backups_witness :
    List.Perm (cleanupRemaining ["b1", "b3", "b2", "b7", "b5", "b4", "b6"])
      ((sortDesc ["b1", "b3", "b2", "b7", "b5", "b4", "b6"]).take 5) ∧
    (cleanupRemaining ["b1", "b3", "b2", "b7", "b5", "b4", "b6"]).length ≤ 5 ∧
    (["b1", "b3", "b2", "b7", "b5", "b4", "b6"].length ≤ 5 →
      cleanupRemoved ["b1", "b3", "b2", "b7", "b5", "b4", "b6"] = []) ∧
    (5 < ["b1", "b3", "b2", "b7", "b5", "b4", "b6"].length →
      cleanupRemoved ["b1", "b3", "b2", "b7", "b5", "b4", "b6"] =
        (sortDesc ["b1", "b3", "b2", "b7", "b5", "b4", "b6"]).drop 5) ∧
    (∀ x ∈ (sortDesc ["b1", "b3", "b2", "b7", "b5", "b4", "b6"]).take 5,
      ∀ y ∈ cleanupRemoved ["b1", "b3", "b2", "b7", "b5", "b4", "b6"],
        lexLt x.data y.data = false) :=
  C10_cleanup_old_backups ["b1", "b3", "b2", "b7", "b5", "b4", "b6"] (by decide)

/-- Claim C8 (corrected), counterexample: `interactive_prompt` blocks on
an `input()` read of stdin, a suspension point that is not a fixed sleep
delay, contradicting "never blocks or suspends at any point other than
fixed sleep delays". -/
theorem C8_counterexample_input_blocks :
    Effect.promptInput "Press ENTER when ready..." ∈ interactivePromptEffects "msg" ∧
    suspends (Effect.promptInput "Press ENTER when ready...") = true ∧
    isFixedSleep (Effect.promptInput "Press ENTER when ready...") = false := by
  decide

/-- Claim C8 (amended): the scripts run single-threaded and issue their
effects as one linear sequence; the only suspension points of the
embedded traces are the fixed sleep delays, the interactive stdin
prompts, and the synchronous waits on spawned subprocesses — computed
exactly by filtering each trace for suspending effects. -/
theorem C8_suspension_points (msg : String) (missing : List String)
    (dir filename : String) (delay : ℚ) :
    (interactivePromptEffects msg).filter suspends =
      [.promptInput "Press ENTER when ready..."] ∧
    (syncConfirmEffects missing).filter suspends =
      [.promptInput "Add these files to the Xcode project? (y/n): "] ∧
    (captureScreenEffects dir filename delay).filter suspends =
      (if 0 < delay then [Effect.sleepFor delay] else []) ++
        [.runProcess ["screencapture", "-x", dir ++ "/" ++ filename]] := by
  refine ⟨by simp [interactivePromptEffects, suspends], ?_, ?_⟩
  · have hmap : (missing.map (fun f => Effect.output ("  - " ++ f))).filter suspends = [] := by
      rw [List.filter_eq_nil_iff]
      intro a ha
      rcases List.mem_map.mp ha with ⟨f, _, rfl⟩
      simp [suspends]
    simp [syncConfirmEffects, suspends, List.filter_append, hmap]
  · by_cases hd : 0 < delay
    · simp [captureScreenEffects, suspends, List.filter_append, hd]
    · simp [captureScreenEffects, suspends, List.filter_append, hd]

/-! ## Claims C5 and C9 -/

/-- Bounds for a percentage ratio of counts. -/
theorem ratio_bounds {p t : Nat} (h : p ≤ t) (ht : 0 < t) :
    0 ≤ ((p : ℚ) / (t : ℚ)) * 100 ∧ ((p : ℚ) / (t : ℚ)) * 100 ≤ 100 := by
  have ht' : (0 : ℚ) < (t : ℚ) := by exact_mod_cast ht
  constructor
  · positivity
  · have h1 : (p : ℚ) / (t : ℚ) ≤ 1 := by
      rw [div_le_one ht']
      exact_mod_cast h
    calc ((p : ℚ) / (t : ℚ)) * 100 ≤ 1 * 100 :=
          mul_le_mul_of_nonneg_right h1 (by norm_num)
      _ = 100 := one_mul _

/-- Claim C9: `pass_rate` is always defined and lies in `[0, 100]`; it
is `0.0` for an empty suite and `(passed/total)*100` otherwise; and the
Markdown/text report pass-rate divisor `max(total_tests, 1)` is
positive, with the resulting rate again in `[0, 100]`. -/
theorem C9_pass_rate_total (cases : List TestCase) :
    (0 ≤ passRate cases ∧ passRate cases ≤ 100) ∧
    passRate cases = (if cases.length = 0 then 0
      else ((countPassed cases : ℚ) / (cases.length : ℚ)) * 100) ∧
    (0 : ℚ) < ((max (summaryOf cases).totalTests 1 : Nat) : ℚ) ∧
    (0 ≤ summaryPassRate (summaryOf cases) ∧ summaryPassRate (summaryOf cases) ≤ 100) := by
  have hple : countPassed cases ≤ cases.length := List.length_filter_le _ _
  refine ⟨?_, rfl, ?_, ?_⟩
  · by_cases h : cases.length = 0
    · simp [passRate, h]
    · have := ratio_bounds hple (Nat.pos_of_ne_zero h)
      simpa [passRate, h] using this
  · have : 0 < max (summaryOf cases).totalTests 1 := by
      have := Nat.le_max_right (summaryOf cases).totalTests 1
      omega
    exact_mod_cast this
  · have hp : (summaryOf cases).totalPassed ≤ max (summaryOf cases).totalTests 1 := by
      by_cases h : cases.isEmpty
      · simp [summaryOf, suitesOf, h]
      · have : (summaryOf cases).totalPassed = countPassed cases := by
          simp [summaryOf, suitesOf, h]
        rw [this]
        have h2 : (summaryOf cases).totalTests = cases.length := by
          simp [summaryOf, suitesOf, h]
        rw [h2]
        exact Nat.le_trans hple (Nat.le_max_left _ _)
    have hpos : 0 < max (summaryOf cases).totalTests 1 := by
      have := Nat.le_max_right (summaryOf cases).totalTests 1
      omega
    exact ratio_bounds hp hpos

/-- Claim C5 (amended): the generator's exit code is always 0 or 1, and
on every run that completes without an uncaught exception it is 1
exactly when the report summary's `total_failed` is positive.  (A run
aborted by an uncaught exception — see the counterexample — also exits
with status 1 without producing a summary.) -/
theorem C5_exit_code_vs_failures (files : List (List String)) :
    (generatorExitCode files = 0 ∨ generatorExitCode files = 1) ∧
    (∀ s, generatorRun files = .ok s →
      (generatorExitCode files = 1 ↔ 0 < s.totalFailed)) := by
  constructor
  · unfold generatorExitCode
    cases generatorRun files with
    | error e => right; rfl
    | ok s =>
      by_cases h : 0 < s.totalFailed
      · right; simp [h]
      · left; simp [h]
  · intro s hs
    unfold generatorExitCode
    rw [hs]
    by_cases h : 0 < s.totalFailed
    · simp [h]
    · simp [h]

set_option maxRecDepth 400000 in
/-- Claim C5 (corrected), counterexample: on a log consisting of the
single line `badDurationLine` the process exits with status 1 although
no parsed test case failed — the run aborts before any report summary
exists, so "exit code 1 iff total_failed > 0" is false. -/
theorem C5_counterexample_uncaught_valueerror :
    generatorExitCode [[badDurationLine]] = 1 ∧
    generatorRun [[badDurationLine]] =
      .error "ValueError: could not convert string to float" ∧
    ¬ ∃ s, generatorRun [[badDurationLine]] = .ok s ∧ 0 < s.totalFailed := by
  refine ⟨by decide, by decide, ?_⟩
  rintro ⟨s, hs, _⟩
  rw [show generatorRun [[badDurationLine]] =
    .error "ValueError: could not convert string to float" from by decide] at hs
  cases hs

/-- Witness for C5: a log with one failed test case gives exit code 1
through the summary path. -/
theorem C5_exit_code_vs_failures_witness :
    generatorExitCode [["Test Case \x27-[A b]\x27 failed (2.0 seconds)."]] = 1 :=
  ((C5_exit_code_vs_failures [["Test Case \x27-[A b]\x27 failed (2.0 seconds)."]]).2
    ⟨1, 1, 0, 1⟩ (by decide)).mpr (by decide)

/-! ## Lemmas on the anchored matchers (claim C7) -/

theorem dropLit_append (lit x : List Char) : dropLit lit (lit ++ x) = some x := by
  unfold dropLit
  rw [if_pos (isPrefixOf_append_self lit x), List.drop_left]

theorem dropLit_self (lit : List Char) : dropLit lit lit = some [] := by
  have h := dropLit_append lit []
  rwa [List.append_nil] at h

theorem dropLit_space (x : List Char) : dropLit [' '] (' ' :: x) = some x :=
  dropLit_append [' '] x

theorem dropLit_sqSep (rest : List Char) :
    dropLit sqSep (']' :: ('\x27' :: (' ' :: rest))) = some rest :=
  dropLit_append sqSep rest

theorem sqSep_append (rest : List Char) :
    sqSep ++ rest = ']' :: ('\x27' :: (' ' :: rest)) := rfl

theorem takeWhile_append_cons {p : Char → Bool} :
    ∀ {a : List Char}, (∀ c ∈ a, p c = true) → ∀ {c : Char}, p c = false →
      ∀ (b : List Char),
        (a ++ c :: b).takeWhile p = a ∧ (a ++ c :: b).dropWhile p = c :: b := by
  intro a
  induction a with
  | nil =>
    intro _ c hc b
    simp [List.takeWhile, List.dropWhile, hc]
  | cons x xs ih =>
    intro ha c hc b
    have hx : p x = true := ha x (List.mem_cons_self x xs)
    have hxs : ∀ d ∈ xs, p d = true := fun d hd => ha d (List.mem_cons_of_mem x hd)
    rcases ih hxs hc b with ⟨h1, h2⟩
    simp [List.takeWhile, List.dropWhile, hx, h1, h2]

theorem takeWhile1_append_cons {p : Char → Bool} {a : List Char}
    (ha : ∀ c ∈ a, p c = true) (h0 : a ≠ []) {c : Char} (hc : p c = false)
    (b : List Char) : takeWhile1 p (a ++ c :: b) = some (a, c :: b) := by
  rcases takeWhile_append_cons ha hc b with ⟨h1, h2⟩
  unfold takeWhile1
  match a, h0 with
  | x :: xs, _ =>
    rw [show ((x :: xs) ++ c :: b).takeWhile p = x :: xs from h1]
    rw [show ((x :: xs) ++ c :: b).dropWhile p = c :: b from h2]

theorem headParse_build {cls nm : List Char} (rest : List Char)
    (hc : ∀ c ∈ cls, wordChar c = true) (hc0 : cls ≠ [])
    (hn : ∀ c ∈ nm, wordChar c = true) (hn0 : nm ≠ []) :
    headParse (tcHead ++ (cls ++ (' ' :: (nm ++ (sqSep ++ rest))))) =
      some (cls, nm, rest) := by
  have t1 : takeWhile1 wordChar (cls ++ (' ' :: (nm ++ (sqSep ++ rest)))) =
      some (cls, ' ' :: (nm ++ (sqSep ++ rest))) :=
    takeWhile1_append_cons hc hc0 (show wordChar ' ' = false by decide) _
  have t2 : takeWhile1 wordChar (nm ++ (sqSep ++ rest)) = some (nm, sqSep ++ rest) :=
    takeWhile1_append_cons hn hn0 (show wordChar ']' = false by decide)
      ('\x27' :: (' ' :: rest))
  have t3 : dropLit sqSep (sqSep ++ rest) = some rest := dropLit_append sqSep rest
  simp only [headParse, dropLit_append, t1, dropLit_space, t2, t3]

theorem Option_eq_some_getD {α : Type} {o : Option α} (d : α) (h : o.isSome = true) :
    o = some (o.getD d) := by
  cases o with
  | none => simp at h
  | some v => rfl

theorem matchKw_same (kw : List Char) {cls nm ds : List Char}
    (hc : ∀ c ∈ cls, wordChar c = true) (hc0 : cls ≠ [])
    (hn : ∀ c ∈ nm, wordChar c = true) (hn0 : nm ≠ [])
    (hd : ∀ c ∈ ds, durChar c = true) (hd0 : ds ≠ []) :
    matchKw kw (kwLine kw cls nm ds) = some (cls, nm, ds) := by
  have hhead := headParse_build (kw ++ (ds ++ secondsLit)) hc hc0 hn hn0
  have t4 : takeWhile1 durChar (ds ++ secondsLit) = some (ds, secondsLit) :=
    takeWhile1_append_cons hd hd0 (show durChar ' ' = false by decide) "seconds).".data
  simp only [matchKw, kwLine, hhead, dropLit_append, t4, dropLit_self, Option.map_some']

theorem matchStart_kwLine_passed (ds : List Char) {cls nm : List Char}
    (hc : ∀ c ∈ cls, wordChar c = true) (hc0 : cls ≠ [])
    (hn : ∀ c ∈ nm, wordChar c = true) (hn0 : nm ≠ []) :
    matchStart (kwLine passedLit cls nm ds) = none := by
  have hhead := headParse_build (passedLit ++ (ds ++ secondsLit)) hc hc0 hn hn0
  simp only [matchStart, kwLine, hhead,
    show dropLit startedLit (passedLit ++ (ds ++ secondsLit)) = none from rfl,
    Option.map_none']

theorem matchStart_kwLine_failed (ds : List Char) {cls nm : List Char}
    (hc : ∀ c ∈ cls, wordChar c = true) (hc0 : cls ≠ [])
    (hn : ∀ c ∈ nm, wordChar c = true) (hn0 : nm ≠ []) :
    matchStart (kwLine failedLit cls nm ds) = none := by
  have hhead := headParse_build (failedLit ++ (ds ++ secondsLit)) hc hc0 hn hn0
  simp only [matchStart, kwLine, hhead,
    show dropLit startedLit (failedLit ++ (ds ++ secondsLit)) = none from rfl,
    Option.map_none']

theorem matchKw_passed_of_failed_line (ds : List Char) {cls nm : List Char}
    (hc : ∀ c ∈ cls, wordChar c = true) (hc0 : cls ≠ [])
    (hn : ∀ c ∈ nm, wordChar c = true) (hn0 : nm ≠ []) :
    matchKw passedLit (kwLine failedLit cls nm ds) = none := by
  have hhead := headParse_build (failedLit ++ (ds ++ secondsLit)) hc hc0 hn hn0
  simp only [matchKw, kwLine, hhead,
    show dropLit passedLit (failedLit ++ (ds ++ secondsLit)) = none from rfl]

theorem parseStep_passed (seen : List String) (st : PState) {cls nm ds : List Char}
    (hc : ∀ c ∈ cls, wordChar c = true) (hc0 : cls ≠ [])
    (hn : ∀ c ∈ nm, wordChar c = true) (hn0 : nm ≠ [])
    (hd : ∀ c ∈ ds, durChar c = true) (hd0 : ds ≠ [])
    (hv : (pyFloat ds).isSome = true) :
    parseStep seen (String.mk (kwLine passedLit cls nm ds)) st =
      .ok { st with cases := st.cases ++
        [⟨String.mk nm, String.mk cls, TestStatus.passed, (pyFloat ds).getD 0, none⟩] } := by
  have h1 := matchStart_kwLine_passed ds hc hc0 hn hn0
  have h2 := matchKw_same passedLit hc hc0 hn hn0 hd hd0
  rcases Option.isSome_iff_exists.mp hv with ⟨d, hd2⟩
  simp only [parseStep, h1, h2, hd2, Option.getD_some]

theorem parseStep_failed (seen : List String) (st : PState) {cls nm ds : List Char}
    (hc : ∀ c ∈ cls, wordChar c = true) (hc0 : cls ≠ [])
    (hn : ∀ c ∈ nm, wordChar c = true) (hn0 : nm ≠ [])
    (hd : ∀ c ∈ ds, durChar c = true) (hd0 : ds ≠ [])
    (hv : (pyFloat ds).isSome = true) :
    parseStep seen (String.mk (kwLine failedLit cls nm ds)) st =
      .ok { st with cases := st.cases ++
        [⟨String.mk nm, String.mk cls, TestStatus.failed, (pyFloat ds).getD 0,
          findErrorContext seen⟩] } := by
  have h1 := matchStart_kwLine_failed ds hc hc0 hn hn0
  have h2 := matchKw_passed_of_failed_line ds hc hc0 hn hn0
  have h3 := matchKw_same failedLit hc hc0 hn hn0 hd hd0
  rcases Option.isSome_iff_exists.mp hv with ⟨d, hd2⟩
  simp only [parseStep, h1, h2, h3, hd2, Option.getD_some]

theorem parseLinesGo_append :
    ∀ (xs seen : List String) (x : String) (st : PState),
      parseLinesGo seen (xs ++ [x]) st =
        match parseLinesGo seen xs st with
        | .error e => .error e
        | .ok st' => parseStep (seen ++ xs) x st'
  | [], seen, x, st => by
    cases h : parseStep seen x st <;>
      simp [parseLinesGo, h, List.append_nil]
  | y :: ys, seen, x, st => by
    show (match parseStep seen y st with
      | Except.error e => (Except.error e : Except String PState)
      | Except.ok st' => parseLinesGo (seen ++ [y]) (ys ++ [x]) st') = _
    cases h : parseStep seen y st with
    | error e => simp [parseLinesGo, h]
    | ok st1 =>
      have hun : parseLinesGo seen (y :: ys) st = parseLinesGo (seen ++ [y]) ys st1 := by
        show (match parseStep seen y st with
          | Except.error e => (Except.error e : Except String PState)
          | Except.ok st' => parseLinesGo (seen ++ [y]) ys st') = _
        rw [h]
      rw [hun]
      show parseLinesGo (seen ++ [y]) (ys ++ [x]) st1 = _
      rw [parseLinesGo_append ys (seen ++ [y]) x st1]
      have hsa : (seen ++ [y]) ++ ys = seen ++ (y :: ys) := by
        simp [List.append_assoc]
      rw [hsa]

/-- Claim C7: for a log whose last line is a well-formed
`Test Case '-[C t]' passed (d seconds).` line the parser appends exactly
one record with class `C`, name `t`, status passed, duration `d` and no
error text; for a `failed` line it appends the failed record whose error
text is `_find_error_context` of the preceding lines; and whenever that
context is present it is the stripped text of one of the (at most ten)
immediately preceding lines containing `XCTAssert` or (case-insensitively)
`failed`. -/
theorem C7_test_case_line_parsing (LS : List String) (st : PState) (cls nm ds : List Char)
    (hc : ∀ c ∈ cls, wordChar c = true) (hc0 : cls ≠ [])
    (hn : ∀ c ∈ nm, wordChar c = true) (hn0 : nm ≠ [])
    (hd : ∀ c ∈ ds, durChar c = true) (hd0 : ds ≠ [])
    (hv : (pyFloat ds).isSome = true) :
    (parseLinesGo [] (LS ++ [String.mk (kwLine passedLit cls nm ds)]) st =
      match parseLinesGo [] LS st with
      | .error e => .error e
      | .ok st' => .ok { st' with cases := st'.cases ++
          [⟨String.mk nm, String.mk cls, TestStatus.passed, (pyFloat ds).getD 0, none⟩] }) ∧
    (parseLinesGo [] (LS ++ [String.mk (kwLine failedLit cls nm ds)]) st =
      match parseLinesGo [] LS st with
      | .error e => .error e
      | .ok st' => .ok { st' with cases := st'.cases ++
          [⟨String.mk nm, String.mk cls, TestStatus.failed, (pyFloat ds).getD 0,
            findErrorContext LS⟩] }) ∧
    (∀ m, findErrorContext LS = some m →
      ∃ line, line ∈ LS.drop (LS.length - 10) ∧ ctxPred line = true ∧
        m = String.mk (pyStrip line.data)) := by
  refine ⟨?_, ?_, ?_⟩
  · rw [parseLinesGo_append]
    cases h : parseLinesGo [] LS st with
    | error e => rfl
    | ok st' =>
      show parseStep ([] ++ LS) _ st' = _
      rw [List.nil_append]
      exact parseStep_passed LS st' hc hc0 hn hn0 hd hd0 hv
  · rw [parseLinesGo_append]
    cases h : parseLinesGo [] LS st with
    | error e => rfl
    | ok st' =>
      show parseStep ([] ++ LS) _ st' = _
      rw [List.nil_append]
      exact parseStep_failed LS st' hc hc0 hn hn0 hd hd0 hv
  · intro m hm
    unfold findErrorContext at hm
    rcases Option.map_eq_some'.mp hm with ⟨line, hfind, hmm⟩
    exact ⟨line, List.mem_of_find?_eq_some hfind, List.find?_some hfind, hmm.symm⟩

set_option maxRecDepth 400000 in
/-- Witness for C7: one preceding `XCTAssert ... failed` line, then the
passed and failed variants of a concrete test-case line. -/
theorem C7_test_case_line_parsing_witness :
    (parseLinesGo [] (["  XCTAssertEqual failed: x  "] ++
        [String.mk (kwLine passedLit "MyTests".data "testFoo".data "1.5".data)])
        ⟨[], [], []⟩ =
      match parseLinesGo [] ["  XCTAssertEqual failed: x  "] ⟨[], [], []⟩ with
      | .error e => .error e
      | .ok st' => .ok { st' with cases := st'.cases ++
          [⟨String.mk "testFoo".data, String.mk "MyTests".data, TestStatus.passed,
            (pyFloat "1.5".data).getD 0, none⟩] }) ∧
    (parseLinesGo [] (["  XCTAssertEqual failed: x  "] ++
        [String.mk (kwLine failedLit "MyTests".data "testFoo".data "1.5".data)])
        ⟨[], [], []⟩ =
      match parseLinesGo [] ["  XCTAssertEqual failed: x  "] ⟨[], [], []⟩ with
      | .error e => .error e
      | .ok st' => .ok { st' with cases := st'.cases ++
          [⟨String.mk "testFoo".data, String.mk "MyTests".data, TestStatus.failed,
            (pyFloat "1.5".data).getD 0,
            findErrorContext ["  XCTAssertEqual failed: x  "]⟩] }) ∧
    (∀ m, findErrorContext ["  XCTAssertEqual failed: x  "] = some m →
      ∃ line, line ∈ (["  XCTAssertEqual failed: x  "] : List String).drop
          ((["  XCTAssertEqual failed: x  "] : List String).length - 10) ∧
        ctxPred line = true ∧ m = String.mk (pyStrip line.data)) :=
  C7_test_case_line_parsing ["  XCTAssertEqual failed: x  "] ⟨[], [], []⟩
    "MyTests".data "testFoo".data "1.5".data
    (by decide) (by decide) (by decide) (by decide) (by decide) (by decide) (by decide)

/-! ## Claims C4 and C6 -/

/-- Claim C4: each analyzer always returns a dictionary and never
propagates an exception — on a failed read/parse the result is the
`{'error': msg}` dictionary, and on success it is the computed analysis
dictionary (for `analyze_app_logs`, whenever its body computes an
analysis `a`, that `a` is returned; `analyze_test_log`'s body is total,
so its success case always yields the computed analysis). -/
theorem C4_analyzers_return_dicts :
    (∀ e, analyzeTestResults (.error e) = .errDict e) ∧
    (∀ j, (∃ m, analyzeTestResults (.ok j) = TROut.errDict m) ∨
      (∃ a, analyzeTestResults (.ok j) = TROut.okDict a)) ∧
    (∀ e, analyzeAppLogs (.error e) = .errDict e) ∧
    (∀ j, (∃ m, analyzeAppLogs (.ok j) = AppLogsOut.errDict m) ∨
      (∃ a, analyzeAppLogs (.ok j) = AppLogsOut.okDict a)) ∧
    (∀ j a, bodyAppLogs j = .ok a → analyzeAppLogs (.ok j) = .okDict a) ∧
    (∀ e, analyzeTestLog (.error e) = .errDict e) ∧
    (∀ s, analyzeTestLog (.ok s) = .okDict (bodyTestLog s)) := by
  refine ⟨fun e => rfl, ?_, fun e => rfl, ?_, ?_, fun e => rfl, fun s => rfl⟩
  · intro j
    cases h : bodyTestResults j with
    | error m => exact Or.inl ⟨m, by simp [analyzeTestResults, h]⟩
    | ok a => exact Or.inr ⟨a, by simp [analyzeTestResults, h]⟩
  · intro j
    cases h : bodyAppLogs j with
    | error m => exact Or.inl ⟨m, by simp [analyzeAppLogs, h]⟩
    | ok a => exact Or.inr ⟨a, by simp [analyzeAppLogs, h]⟩
  · intro j a h
    simp [analyzeAppLogs, h]

/-- Witness for C4: reading failure yields the error dictionary, and a
concrete empty JSON object yields the computed analysis. -/
theorem C4_analyzers_return_dicts_witness :
    analyzeAppLogs (.ok (.dict [])) =
      .okDict ⟨0, [], [], [], [], .list [], [], []⟩ :=
  C4_analyzers_return_dicts.2.2.2.2.1 (.dict [])
    ⟨0, [], [], [], [], .list [], [], []⟩ rfl

/-- Claim C6: every issue appended by `categorize_issues` carries the
claimed severity for its type — critical errors are `critical`, regular
errors and test failures `high`, slow operations `medium`, warnings
`low` — and the generated report's summary counts equal the lengths of
the corresponding accumulated lists. -/
theorem C6_severity_assignment_and_summary :
    (∀ (st : AnalyzerState) (app : AppLogsOut) (tf : List PyVal),
      ∀ x ∈ (categorizeIssues st app tf).issues, x ∈ st.issues ∨
        (issueField x "type" = some (.str "critical_error") ∧
          issueField x "severity" = some (.str "critical")) ∨
        (issueField x "type" = some (.str "error") ∧
          issueField x "severity" = some (.str "high")) ∨
        (issueField x "type" = some (.str "test_failure") ∧
          issueField x "severity" = some (.str "high")) ∨
        (issueField x "type" = some (.str "performance") ∧
          issueField x "severity" = some (.str "medium")) ∨
        (issueField x "type" = some (.str "warning") ∧
          issueField x "severity" = some (.str "low"))) ∧
    (∀ st : AnalyzerState, generateIssueReportSummary st =
      ⟨st.issues.length, st.errors.length, st.warnings.length,
        st.performanceIssues.length, st.uiIssues.length⟩) := by
  refine ⟨?_, fun st => rfl⟩
  intro st app tf x hx
  simp only [categorizeIssues, List.mem_append] at hx
  rcases hx with ((((hx | hx) | hx) | hx) | hx) | hx
  · exact Or.inl hx
  · rcases List.mem_map.mp hx with ⟨e, _, rfl⟩
    exact Or.inr (Or.inl ⟨rfl, rfl⟩)
  · rcases List.mem_map.mp hx with ⟨e, _, rfl⟩
    exact Or.inr (Or.inr (Or.inl ⟨rfl, rfl⟩))
  · rcases List.mem_map.mp hx with ⟨f, _, rfl⟩
    exact Or.inr (Or.inr (Or.inr (Or.inl ⟨rfl, rfl⟩)))
  · rcases List.mem_map.mp hx with ⟨s, _, rfl⟩
    exact Or.inr (Or.inr (Or.inr (Or.inr (Or.inl ⟨rfl, rfl⟩))))
  · rcases List.mem_map.mp hx with ⟨w, _, rfl⟩
    exact Or.inr (Or.inr (Or.inr (Or.inr (Or.inr ⟨rfl, rfl⟩))))

/-- Witness for C6: a concrete test failure is categorised `high`. -/
theorem C6_severity_assignment_witness :
    failIssue (.str "boom") ∈ (⟨[], [], [], [], []⟩ : AnalyzerState).issues ∨
      (issueField (failIssue (.str "boom")) "type" = some (.str "critical_error") ∧
        issueField (failIssue (.str "boom")) "severity" = some (.str "critical")) ∨
      (issueField (failIssue (.str "boom")) "type" = some (.str "error") ∧
        issueField (failIssue (.str "boom")) "severity" = some (.str "high")) ∨
      (issueField (failIssue (.str "boom")) "type" = some (.str "test_failure") ∧
        issueField (failIssue (.str "boom")) "severity" = some (.str "high")) ∨
      (issueField (failIssue (.str "boom")) "type" = some (.str "performance") ∧
        issueField (failIssue (.str "boom")) "severity" = some (.str "medium")) ∨
      (issueField (failIssue (.str "boom")) "type" = some (.str "warning") ∧
        issueField (failIssue (.str "boom")) "severity" = some (.str "low")) :=
  C6_severity_assignment_and_summary.1 ⟨[], [], [], [], []⟩ (.errDict "e")
    [.str "boom"] (failIssue (.str "boom"))
    (show failIssue (.str "boom") ∈ [failIssue (.str "boom")] from
      List.mem_singleton_self _)

end Craig

